import Mathlib

/-!
Shallow embedding of the MAS_Steel multi-agent control core
(`src/steel_MAS`), with theorems checking the natural-language
specification against the code.

Python floats are idealized as rationals (`ℚ`); Python dicts keyed by
strings are association lists `List (String × _)` (lookup returns the
first binding, mirroring dict semantics on duplicate-free key lists);
`None`-able parameters are `Option`s. `float('inf')` as an upper bound
is modelled by `Option ℚ` where `none` means "no upper bound".
-/

namespace MAS

/-! ## solvers/rule_based.py : RuleBasedController -/

namespace RuleBasedController

/-- Embeds `RuleBasedController.clamp`: `max(min_val, min(max_val, value))`. -/
def clamp (value min_val max_val : ℚ) : ℚ :=
  max min_val (min max_val value)

/-- Embeds `RuleBasedController.hysteresis_check` (rule_based.py lines 21-49). -/
def hysteresis_check (current_value target upper_band lower_band : ℚ)
    (current_state : Bool) : Bool × String :=
  if current_value > target + upper_band then (true, "above_upper_band")
  else if current_value < target - lower_band then (true, "below_lower_band")
  else if current_state ∧
      (target - lower_band / 2 ≤ current_value ∧
        current_value ≤ target + upper_band / 2) then
    (true, "within_hysteresis")
  else (false, "normal")

/-- Embeds `RuleBasedController.incremental_adjust` (rule_based.py lines 51-79).
Python defaults are `step_size=0.05`, `min_val=0.0`, `max_val=float('inf')`;
call sites below pass those defaults explicitly, with `max_val = none`
standing for the infinite upper bound (so the final clamp degenerates to
`max min_val new_value`). -/
def incremental_adjust (current_value : ℚ) (direction : String)
    (step_size min_val : ℚ) (max_val : Option ℚ) : ℚ :=
  let new_value :=
    if direction = "increase" then current_value * (1 + step_size)
    else if direction = "decrease" then current_value * (1 - step_size)
    else current_value
  match max_val with
  | some m => clamp new_value min_val m
  | none => max min_val new_value

/-- Priority of a consumer: `priorities.get(x, 0)`. -/
def prio (priorities : List (String × Int)) (x : String) : Int :=
  (priorities.lookup x).getD 0

/-- Descending-priority order used by `priority_allocate`'s
`sorted(demands.keys(), key=lambda x: priorities.get(x, 0), reverse=True)`.
Python's `sorted` is a stable sort; `List.insertionSort` with this
reflexive relation is stable as well, so the two agree on every input. -/
def prioGE (priorities : List (String × Int)) (a b : String) : Prop :=
  prio priorities b ≤ prio priorities a

instance (priorities : List (String × Int)) : DecidableRel (prioGE priorities) :=
  fun a b => inferInstanceAs (Decidable (prio priorities b ≤ prio priorities a))

/-- Consumers of `demands` sorted by descending priority (stable). -/
def sorted_consumers (demands : List (String × ℚ))
    (priorities : List (String × Int)) : List String :=
  (demands.map Prod.fst).insertionSort (prioGE priorities)

/-- Embeds the greedy `for consumer in sorted_consumers` loop of
`priority_allocate`, including the `break` once `remaining <= 0`. -/
def allocate_loop (demands : List (String × ℚ)) :
    ℚ → List String → List (String × ℚ)
  | _, [] => []
  | remaining, consumer :: rest =>
    let demand := (demands.lookup consumer).getD 0
    let allocated := min demand remaining
    (consumer, allocated) ::
      (if remaining - allocated ≤ 0 then []
       else allocate_loop demands (remaining - allocated) rest)

/-- Embeds `RuleBasedController.priority_allocate` (rule_based.py lines
81-122): greedy allocation over the priority-sorted consumers, then the
zero-fill loop for consumers that got no entry. -/
def priority_allocate (available : ℚ) (demands : List (String × ℚ))
    (priorities : List (String × Int)) : List (String × ℚ) :=
  let alloc := allocate_loop demands available (sorted_consumers demands priorities)
  alloc ++
    ((demands.map Prod.fst).filter
        (fun c => ! (alloc.lookup c).isSome)).map (fun c => (c, (0 : ℚ)))

end RuleBasedController

/-! ## solvers/rule_based.py : SafetyLimits -/

namespace SafetyLimits

def BF_WIND_MIN : ℚ := 1000
def BF_WIND_MAX : ℚ := 8000
def BF_O2_MAX : ℚ := 6
def BF_PCI_MAX : ℚ := 200
def BF_TEMP_MAX : ℚ := 1600
def BF_SI_MAX : ℚ := 8/10
def BOF_O2_MAX : ℚ := 60000
def BOF_TEMP_MAX : ℚ := 1750
def BOF_P_MAX : ℚ := 15
def CO_TEMP_MAX : ℚ := 1400
def CO_TEMP_MIN : ℚ := 1000
def GH_P_EMERGENCY : ℚ := 16
def GH_P_MIN : ℚ := 8
def GH_SOC_MIN : ℚ := 5/100
def GH_SOC_MAX : ℚ := 95/100

end SafetyLimits

/-! ## models/gas_network.py -/

/-- Bool-valued check that `needle` starts `haystack` (character lists). -/
def charsStartWith : List Char → List Char → Bool
  | [], _ => true
  | _ :: _, [] => false
  | a :: as, b :: bs => (a == b) && charsStartWith as bs

/-- Bool-valued contiguous-substring check on character lists. -/
def charsContain (needle : List Char) : List Char → Bool
  | [] => needle.isEmpty
  | h :: t => charsStartWith needle (h :: t) || charsContain needle t

/-- Embeds Python's `needle in key.lower()` test used by
`_calculate_net_flow`: `str.lower` maps `Char.toLower` over the
characters and `in` is the contiguous-substring check. -/
def pyInLower (needle key : String) : Bool :=
  charsContain needle.toList (key.toList.map Char.toLower)

namespace GasNetwork

/-- Embeds the `GasNetworkState` dataclass (gas_network.py lines 17-47). -/
structure State where
  soc_bfg : ℚ
  p_bfg : ℚ
  bfg_level : ℚ
  soc_bofg : ℚ
  p_bofg : ℚ
  bofg_level : ℚ
  soc_cog : ℚ
  p_cog : ℚ
  cog_level : ℚ
deriving DecidableEq, Repr

/-- Gas holder capacities set in `GasNetwork.__init__`. -/
def capacities : List (String × ℚ) :=
  [("bfg", 400000), ("bofg", 150000), ("cog", 100000)]

/-- Pressure model parameter `p_min` from `GasNetwork.__init__`. -/
def p_min : ℚ := 8

/-- Pressure model parameter `p_range` from `GasNetwork.__init__`. -/
def p_range : ℚ := 8

/-- Initial holder state constructed in `GasNetwork.__init__`
(and re-established verbatim by `GasNetwork.reset`). -/
def initState : State :=
  { soc_bfg := 1/2, p_bfg := 12, bfg_level := 1/2
    soc_bofg := 1/2, p_bofg := 12, bofg_level := 1/2
    soc_cog := 1/2, p_cog := 12, cog_level := 1/2 }

/-- Embeds `GasNetwork.reset` (gas_network.py lines 230-236). -/
def reset (_s : State) : State := initState

/-- Embeds `np.clip(x, lo, hi)` for `lo ≤ hi`. -/
def npClip (x lo hi : ℚ) : ℚ := min hi (max lo x)

/-- Embeds `GasNetwork._calculate_net_flow` (gas_network.py lines 151-177):
production of the gas type minus the sum of all demand entries whose key
contains the gas-type tag (`gas_type in key.lower()`). -/
def calculate_net_flow (gas_type : String)
    (gas_production gas_demands : List (String × ℚ)) : ℚ :=
  let production := (gas_production.lookup gas_type).getD 0
  let consumption :=
    ((gas_demands.filter (fun kv => pyInLower gas_type kv.1)).map Prod.snd).sum
  production - consumption

/-- Embeds `GasNetwork._update_holder` (gas_network.py lines 179-228) on the
simple-integration path: `delta_soc = (net_flow / 3600) * timestep * 60 /
capacity`, clip into `[0.05, 0.95]`, pressure `p_min + soc * p_range`.
The optional state-space model only refines the `level` field and falls
back to `new_soc` when absent or failing; it is modelled by that
fallback (`level = new_soc`), which leaves `soc` and `p` untouched
exactly as in the source. -/
def update_holder (s : State) (gas_type : String) (net_flow timestep : ℚ) :
    State :=
  let current_soc :=
    if gas_type = "bfg" then s.soc_bfg
    else if gas_type = "bofg" then s.soc_bofg
    else s.soc_cog
  let capacity := (capacities.lookup gas_type).getD 0
  let delta_soc := (net_flow / 3600) * timestep * 60 / capacity
  let new_soc := npClip (current_soc + delta_soc) (5/100) (95/100)
  let new_p := p_min + new_soc * p_range
  let level := new_soc
  if gas_type = "bfg" then
    { s with soc_bfg := new_soc, p_bfg := new_p, bfg_level := level }
  else if gas_type = "bofg" then
    { s with soc_bofg := new_soc, p_bofg := new_p, bofg_level := level }
  else
    { s with soc_cog := new_soc, p_cog := new_p, cog_level := level }

/-- Embeds `GasNetwork.update` (gas_network.py lines 117-149): net flows for
the three gas types, then the three sequential holder updates. -/
def update (s : State) (gas_production gas_demands : List (String × ℚ))
    (timestep : ℚ) : State :=
  let bfg_net := calculate_net_flow "bfg" gas_production gas_demands
  let bofg_net := calculate_net_flow "bofg" gas_production gas_demands
  let cog_net := calculate_net_flow "cog" gas_production gas_demands
  let s1 := update_holder s "bfg" bfg_net timestep
  let s2 := update_holder s1 "bofg" bofg_net timestep
  update_holder s2 "cog" cog_net timestep

end GasNetwork

/-! ## protocols/gas_request.py -/

/-- Embeds the `MessageType` enum. -/
inductive MessageType where
  | GAS_REQUEST
  | GAS_RESPONSE
  | BOFG_SURGE_WARNING
  | STATE_BROADCAST
  | EMERGENCY_ALERT
deriving DecidableEq, Repr

/-- Embeds the `Message` dataclass; the `data` payload dict of named floats
is an association list. -/
structure Message where
  msg_type : MessageType
  sender : String
  receiver : String
  timestamp : ℚ
  data : List (String × ℚ)
deriving DecidableEq, Repr

/-- Embeds the `BOFGSurgeWarning` dataclass (gas_request.py lines 75-95). -/
structure BOFGSurgeWarning where
  time_to_blow : ℚ
  expected_peak : ℚ
  duration : ℚ
  current_gh_soc : ℚ
deriving DecidableEq, Repr

/-- Embeds `BOFGSurgeWarning.to_message` (gas_request.py lines 83-95). -/
def BOFGSurgeWarning.to_message (w : BOFGSurgeWarning) (timestamp : ℚ) : Message :=
  { msg_type := MessageType.BOFG_SURGE_WARNING
    sender := "BOFAgent"
    receiver := "GasHolderAgent"
    timestamp := timestamp
    data := [("time_to_blow", w.time_to_blow), ("expected_peak", w.expected_peak),
             ("duration", w.duration), ("gh_soc", w.current_gh_soc)] }

/-- Embeds the `MessageBus` class (gas_request.py lines 114-146). -/
structure MessageBus where
  messages : List Message
  time : ℚ
deriving DecidableEq, Repr

/-- Embeds `MessageBus.send`: appends the message. -/
def MessageBus.send (bus : MessageBus) (message : Message) : MessageBus :=
  { bus with messages := bus.messages ++ [message] }

/-- Embeds `MessageBus.get_messages`: keep messages addressed to `receiver`
or to `"all"`, optionally filtered by message type. -/
def MessageBus.get_messages (bus : MessageBus) (receiver : String)
    (msg_type : Option MessageType) : List Message :=
  let filtered := bus.messages.filter
    (fun msg => msg.receiver = receiver ∨ msg.receiver = "all")
  match msg_type with
  | some t => filtered.filter (fun msg => msg.msg_type = t)
  | none => filtered

/-- Embeds `MessageBus.clear`. -/
def MessageBus.clear (bus : MessageBus) : MessageBus :=
  { bus with messages := [] }

/-- Embeds `MessageBus.update_time`. -/
def MessageBus.update_time (bus : MessageBus) (time : ℚ) : MessageBus :=
  { bus with time := time }

/-! ## models/standard_interfaces.py (the parts `calculate_reward` reads) -/

/-- Embeds the `GasHolderState` dataclass of standard_interfaces.py. -/
structure GasHolderState where
  soc_bfg : ℚ
  soc_bofg : ℚ
  soc_cog : ℚ
  p_bfg : ℚ
  p_bofg : ℚ
  p_cog : ℚ
deriving DecidableEq, Repr

/-- Embeds the `ProductionState` dataclass. -/
structure ProductionState where
  bf_bfg_supply : ℚ
  bf_t_hot_metal : ℚ
  bf_si_content : ℚ
  bof_bofg_supply : ℚ
  coke_cog_supply : ℚ
deriving DecidableEq, Repr

/-- Embeds the `DemandState` dataclass. -/
structure DemandState where
  power_plant_demand : ℚ
  heating_demand : ℚ
  priority_level : ℚ
deriving DecidableEq, Repr

/-- Embeds the `StandardState` dataclass (metadata dict omitted: it is an
empty-by-default debug payload never read by the core). -/
structure StandardState where
  time : ℤ
  gas_holder : GasHolderState
  production : ProductionState
  demand : DemandState
deriving DecidableEq, Repr

/-- Embeds the `GasAllocation` dataclass. -/
structure GasAllocation where
  bfg_to_power_plant : ℚ
  bfg_to_heating : ℚ
  bofg_to_power_plant : ℚ
  cog_to_bf : ℚ
  cog_to_heating : ℚ
deriving DecidableEq, Repr

/-- Embeds the `ProductionControl` dataclass. -/
structure ProductionControl where
  bf_wind_volume : ℚ
  bf_pci : ℚ
  bf_o2_enrichment : ℚ
  bof_oxygen : ℚ
  bof_scrap_steel : ℚ
  coke_pushing_rate : ℚ
  coke_heating_gas : ℚ
deriving DecidableEq, Repr

/-- Embeds the `StandardAction` dataclass (metadata omitted as above). -/
structure StandardAction where
  gas_allocation : GasAllocation
  production_control : ProductionControl
deriving DecidableEq, Repr

/-- Embeds the `Reward` dataclass; the `breakdown` debug dict is kept as an
association list. -/
structure Reward where
  production_score : ℚ
  stability_score : ℚ
  efficiency_score : ℚ
  total : ℚ
  breakdown : List (String × ℚ)
deriving DecidableEq, Repr

/-- Embeds `create_default_state` (standard_interfaces.py lines 260-280). -/
def create_default_state (time : ℤ) : StandardState :=
  { time := time
    gas_holder := { soc_bfg := 1/2, soc_bofg := 1/2, soc_cog := 1/2,
                    p_bfg := 12, p_bofg := 12, p_cog := 12 }
    production := { bf_bfg_supply := 0, bf_t_hot_metal := 1500,
                    bf_si_content := 45/100, bof_bofg_supply := 0,
                    coke_cog_supply := 0 }
    demand := { power_plant_demand := 50000, heating_demand := 20000,
                priority_level := 1/2 } }

/-- Embeds `create_default_action` (standard_interfaces.py lines 283-302). -/
def create_default_action : StandardAction :=
  { gas_allocation := { bfg_to_power_plant := 30000, bfg_to_heating := 20000,
                        bofg_to_power_plant := 10000, cog_to_bf := 5000,
                        cog_to_heating := 3000 }
    production_control := { bf_wind_volume := 4000, bf_pci := 150,
                            bf_o2_enrichment := 35/10, bof_oxygen := 20000,
                            bof_scrap_steel := 20, coke_pushing_rate := 12/10,
                            coke_heating_gas := 15000 } }

/-! ## models/reward_calculation.py -/

/-- Embeds the `soc_penalties` list construction of `calculate_reward`
(reward_calculation.py lines 46-52): one penalty entry per SOC outside
the `[0.25, 0.85]` band. -/
def soc_penalties (next_state : StandardState) : List ℚ :=
  [next_state.gas_holder.soc_bfg, next_state.gas_holder.soc_bofg,
   next_state.gas_holder.soc_cog].filterMap
    (fun soc =>
      if soc < 25/100 then some (25/100 - soc)
      else if soc > 85/100 then some (soc - 85/100)
      else none)

/-- Sum of the SOC penalties (`total_soc_penalty` in `calculate_reward`). -/
def total_soc_penalty (next_state : StandardState) : ℚ :=
  (soc_penalties next_state).sum

/-- Embeds `calculate_reward` (reward_calculation.py lines 12-114). -/
def calculate_reward (_state : StandardState) (action : StandardAction)
    (next_state : StandardState) : Reward :=
  let bf_bfg := next_state.production.bf_bfg_supply
  let production_score := min (bf_bfg / 140000) 1
  let soc_bfg := next_state.gas_holder.soc_bfg
  let soc_bofg := next_state.gas_holder.soc_bofg
  let soc_cog := next_state.gas_holder.soc_cog
  let stability_score := max 0 (1 - total_soc_penalty next_state * 2)
  let total_supply :=
    next_state.production.bf_bfg_supply +
    next_state.production.bof_bofg_supply +
    next_state.production.coke_cog_supply
  let total_consumption :=
    action.gas_allocation.bfg_to_power_plant +
    action.gas_allocation.bfg_to_heating +
    action.gas_allocation.bofg_to_power_plant +
    action.gas_allocation.cog_to_bf +
    action.gas_allocation.cog_to_heating
  let utilization := total_consumption / (total_supply + 1/1000000)
  let efficiency_score :=
    if 7/10 ≤ utilization ∧ utilization ≤ 9/10 then 1
    else if utilization < 7/10 then utilization / (7/10)
    else max 0 (1 - (utilization - 9/10) * 5)
  let total :=
    (4/10) * production_score + (4/10) * stability_score +
    (2/10) * efficiency_score
  { production_score := production_score
    stability_score := stability_score
    efficiency_score := efficiency_score
    total := total
    breakdown := [("bf_bfg_supply", bf_bfg),
                  ("soc_penalty_total", total_soc_penalty next_state),
                  ("soc_bfg", soc_bfg), ("soc_bofg", soc_bofg),
                  ("soc_cog", soc_cog), ("utilization", utilization),
                  ("total_supply", total_supply),
                  ("total_consumption", total_consumption)] }

/-! ## agents/bf_agent.py -/

namespace BF_Agent

open RuleBasedController SafetyLimits

/-- Embeds the `self.state` dict of `BF_Agent.__init__`. -/
structure ControlState where
  wind_volume : ℚ
  O2_enrichment : ℚ
  PCI : ℚ
  COG_ratio : ℚ
  Si_target : ℚ
  T_target : ℚ
deriving DecidableEq, Repr

/-- Embeds the `self.hysteresis_states` dict of `BF_Agent.__init__`. -/
structure Hysteresis where
  gh_full_action_active : Bool
  gh_empty_action_active : Bool
  si_high_action_active : Bool
  si_low_action_active : Bool
deriving DecidableEq, Repr

/-- Mutable part of a `BF_Agent` (its id never changes behaviour). -/
structure Agent where
  state : ControlState
  hysteresis_states : Hysteresis
deriving DecidableEq, Repr

def Si_band : ℚ := 3/100
def SOC_high : ℚ := 85/100
def SOC_low : ℚ := 25/100
def P_high : ℚ := 14
def P_low : ℚ := 9

/-- Initial agent constructed by `BF_Agent.__init__`. -/
def init : Agent :=
  { state := { wind_volume := 4000, O2_enrichment := 35/10, PCI := 150,
               COG_ratio := 2/10, Si_target := 45/100, T_target := 1500 }
    hysteresis_states := { gh_full_action_active := false,
                           gh_empty_action_active := false,
                           si_high_action_active := false,
                           si_low_action_active := false } }

/-- Observation dict consumed by `BF_Agent.step`; `none` models an absent
key (which falls back to the literal default from the source). -/
structure Obs where
  Si : Option ℚ
  T_hot_metal : Option ℚ
  SOC_bfg : Option ℚ
  P_bfg : Option ℚ
  COG_available : Option ℚ
  COG_required : Option ℚ
  O2_available : Option ℚ
  peak_electricity : Option Bool
deriving DecidableEq, Repr

/-- Hard clamps of `_apply_safety_rules` (bf_agent.py lines 98-110). -/
def safety_hard_limits (a : Agent) : Agent :=
  { a with state := { a.state with
      wind_volume := clamp a.state.wind_volume BF_WIND_MIN BF_WIND_MAX,
      O2_enrichment := clamp a.state.O2_enrichment 0 BF_O2_MAX } }

/-- Temperature protection of `_apply_safety_rules` (lines 112-120). -/
def safety_temp_protection (a : Agent) (T_hot_metal : ℚ) : Agent :=
  if T_hot_metal > BF_TEMP_MAX then
    { a with state := { a.state with
        PCI := incremental_adjust a.state.PCI "decrease" (20/100) 0 none,
        O2_enrichment :=
          incremental_adjust a.state.O2_enrichment "decrease" (20/100) 0 none } }
  else a

/-- Si protection of `_apply_safety_rules` (lines 122-127). -/
def safety_si_protection (a : Agent) (Si : ℚ) : Agent :=
  if Si > BF_SI_MAX then
    { a with state := { a.state with
        PCI := incremental_adjust a.state.PCI "decrease" (5/100) 0 none } }
  else a

/-- Embeds `BF_Agent._apply_safety_rules` (bf_agent.py lines 95-127) as the
sequence of its three rule blocks. -/
def apply_safety_rules (a : Agent) (Si T_hot_metal _O2_available : ℚ) : Agent :=
  safety_si_protection (safety_temp_protection (safety_hard_limits a)
    T_hot_metal) Si

/-- High-Si rule block of `_apply_process_rules` (bf_agent.py lines
134-144). -/
def process_si_high (a : Agent) (Si : ℚ) : Agent :=
  if Si > a.state.Si_target + Si_band then
    { a with
      hysteresis_states :=
        { a.hysteresis_states with si_high_action_active := true }
      state := { a.state with
        PCI := incremental_adjust a.state.PCI "decrease" (10/100) 0 none,
        O2_enrichment :=
          incremental_adjust a.state.O2_enrichment "decrease" (10/100) 0 none } }
  else if Si < a.state.Si_target + Si_band / 2 then
    { a with hysteresis_states :=
        { a.hysteresis_states with si_high_action_active := false } }
  else a

/-- Low-Si rule block of `_apply_process_rules` (bf_agent.py lines
146-158). -/
def process_si_low (a : Agent) (Si : ℚ) : Agent :=
  if Si < a.state.Si_target - Si_band then
    { a with
      hysteresis_states :=
        { a.hysteresis_states with si_low_action_active := true }
      state := { a.state with
        PCI := incremental_adjust a.state.PCI "increase" (10/100) 0
                 (some BF_PCI_MAX),
        wind_volume := incremental_adjust a.state.wind_volume "increase"
                         (10/100) 0 (some BF_WIND_MAX) } }
  else if Si > a.state.Si_target - Si_band / 2 then
    { a with hysteresis_states :=
        { a.hysteresis_states with si_low_action_active := false } }
  else a

/-- Embeds `BF_Agent._apply_process_rules` (bf_agent.py lines 129-158): the
high-Si block, then the low-Si block. (`Si_target` is read from the state
at each block, which the blocks never modify.) -/
def apply_process_rules (a : Agent) (Si : ℚ) : Agent :=
  process_si_low (process_si_high a Si) Si

/-- Gas-holder-too-full block of `_apply_energy_rules` (bf_agent.py lines
170-184). -/
def energy_gh_full (a : Agent) (SOC_bfg P_bfg : ℚ) : Agent :=
  if SOC_bfg > SOC_high ∨ P_bfg > P_high then
    { a with
      hysteresis_states :=
        { a.hysteresis_states with gh_full_action_active := true }
      state := { a.state with
        wind_volume := incremental_adjust a.state.wind_volume "decrease"
                         (15/100) BF_WIND_MIN none,
        PCI := incremental_adjust a.state.PCI "decrease" (12/100) 0 none,
        O2_enrichment :=
          incremental_adjust a.state.O2_enrichment "decrease" (15/100) 0 none } }
  else if SOC_bfg < 75/100 ∧ P_bfg < 13 then
    { a with hysteresis_states :=
        { a.hysteresis_states with gh_full_action_active := false } }
  else a

/-- Gas-holder-too-empty block of `_apply_energy_rules` (bf_agent.py lines
186-198). -/
def energy_gh_empty (a : Agent) (SOC_bfg P_bfg : ℚ) : Agent :=
  if SOC_bfg < SOC_low ∨ P_bfg < P_low then
    { a with
      hysteresis_states :=
        { a.hysteresis_states with gh_empty_action_active := true }
      state := { a.state with
        wind_volume := incremental_adjust a.state.wind_volume "increase"
                         (15/100) 0 (some BF_WIND_MAX),
        PCI := incremental_adjust a.state.PCI "increase" (12/100) 0
                 (some BF_PCI_MAX) } }
  else if SOC_bfg > 30/100 ∧ P_bfg > 10 then
    { a with hysteresis_states :=
        { a.hysteresis_states with gh_empty_action_active := false } }
  else a

/-- COG-shortage block of `_apply_energy_rules` (bf_agent.py lines
200-209). -/
def energy_cog_shortage (a : Agent) (COG_available COG_required : ℚ) : Agent :=
  if COG_available < COG_required then
    { a with state := { a.state with
        COG_ratio := incremental_adjust a.state.COG_ratio "decrease"
                       (10/100) 0 none,
        PCI := incremental_adjust a.state.PCI "increase" (5/100) 0
                 (some BF_PCI_MAX) } }
  else a

/-- O2-shortage block of `_apply_energy_rules` (bf_agent.py lines 211-220):
`O2_required` is computed from the state as it stands at this point. -/
def energy_o2_shortage (a : Agent) (O2_available : ℚ) : Agent :=
  if O2_available < a.state.O2_enrichment * a.state.wind_volume / 100 then
    { a with state := { a.state with
        O2_enrichment :=
          incremental_adjust a.state.O2_enrichment "decrease" (10/100) 0 none,
        PCI := incremental_adjust a.state.PCI "increase" (4/100) 0
                 (some BF_PCI_MAX) } }
  else a

/-- Embeds `BF_Agent._apply_energy_rules` (bf_agent.py lines 160-220) as the
sequence of its four rule blocks. -/
def apply_energy_rules (a : Agent)
    (SOC_bfg P_bfg COG_available COG_required O2_available : ℚ) : Agent :=
  energy_o2_shortage
    (energy_cog_shortage (energy_gh_empty (energy_gh_full a SOC_bfg P_bfg)
      SOC_bfg P_bfg) COG_available COG_required) O2_available

/-- Embeds `BF_Agent._apply_economic_rules` (bf_agent.py lines 222-229). -/
def apply_economic_rules (a : Agent) (peak_electricity : Bool) : Agent :=
  if peak_electricity then
    { a with state := { a.state with
        wind_volume := incremental_adjust a.state.wind_volume "decrease"
                         (5/100) BF_WIND_MIN none } }
  else a

/-- Embeds `BF_Agent.step` (bf_agent.py lines 56-93): defaults for absent
observation keys, then the four rule tiers in priority order. -/
def step (a : Agent) (o : Obs) : Agent :=
  let Si := o.Si.getD (45/100)
  let T_hot_metal := o.T_hot_metal.getD 1500
  let SOC_bfg := o.SOC_bfg.getD (1/2)
  let P_bfg := o.P_bfg.getD 12
  let COG_available := o.COG_available.getD 10000
  let COG_required := o.COG_required.getD 8000
  let O2_available := o.O2_available.getD 50000
  let peak_electricity := o.peak_electricity.getD false
  let a := apply_safety_rules a Si T_hot_metal O2_available
  let a := apply_process_rules a Si
  let a := apply_energy_rules a SOC_bfg P_bfg COG_available COG_required
             O2_available
  apply_economic_rules a peak_electricity

end BF_Agent

/-! ## agents/bof_agent.py -/

namespace BOF_Agent

open RuleBasedController SafetyLimits

/-- Embeds the `self.state` dict of `BOF_Agent.__init__`. -/
structure ControlState where
  oxygen : ℚ
  scrap_steel : ℚ
  T_target : ℚ
  blow_time : ℚ
  blow_duration : ℚ
deriving DecidableEq, Repr

/-- Mutable part of a `BOF_Agent`. -/
structure Agent where
  state : ControlState
  time_to_next_blow : ℚ
deriving DecidableEq, Repr

/-- Initial agent constructed by `BOF_Agent.__init__`. -/
def init : Agent :=
  { state := { oxygen := 45000, scrap_steel := 20, T_target := 1650,
               blow_time := 0, blow_duration := 18 }
    time_to_next_blow := 30 }

/-- Observation dict consumed by `BOF_Agent.step`. -/
structure Obs where
  T_steel : Option ℚ
  P_bof_gas : Option ℚ
  bof_gas_current : Option ℚ
  SOC_bofg : Option ℚ
  P_bofg : Option ℚ
deriving DecidableEq, Repr

/-- Embeds `BOF_Agent._apply_safety_rules` (bof_agent.py lines 74-88). -/
def apply_safety_rules (a : Agent) (P_bof_gas : ℚ) : Agent :=
  let s := { a.state with oxygen := clamp a.state.oxygen 0 BOF_O2_MAX }
  let s :=
    if P_bof_gas > BOF_P_MAX then
      { s with oxygen := incremental_adjust s.oxygen "decrease" (10/100) 0 none }
    else s
  { a with state := s }

/-- Embeds `BOF_Agent._apply_process_rules` (bof_agent.py lines 90-111). -/
def apply_process_rules (a : Agent) (T_steel : ℚ) : Agent :=
  let T_target := a.state.T_target
  if T_steel > T_target + 20 then
    { a with state := { a.state with
        oxygen := incremental_adjust a.state.oxygen "decrease" (3/100) 0 none,
        scrap_steel := incremental_adjust a.state.scrap_steel "increase"
                         (2/100) 0 (some 30) } }
  else if T_steel < T_target - 20 then
    { a with state := { a.state with
        oxygen := incremental_adjust a.state.oxygen "increase" (3/100) 0
                    (some BOF_O2_MAX) } }
  else a

/-- Embeds `BOF_Agent._apply_energy_rules` (bof_agent.py lines 113-137):
sends the surge warning when `time_to_next_blow <= 2.0` and a bus is
present, then the high-production throttle branch. -/
def apply_energy_rules (a : Agent)
    (bof_gas_current SOC_bofg P_bofg : ℚ) (message_bus : Option MessageBus) :
    Agent × Option MessageBus :=
  let bus :=
    match message_bus with
    | some b =>
      if a.time_to_next_blow ≤ 2 then
        some (b.send
          ((BOFGSurgeWarning.mk a.time_to_next_blow 60000 a.state.blow_duration
              SOC_bofg).to_message b.time))
      else some b
    | none => none
  let bof_gas_design : ℚ := 50000
  let a :=
    if bof_gas_current > bof_gas_design * (13/10) ∧ P_bofg > 14 then
      { a with state := { a.state with
          oxygen := incremental_adjust a.state.oxygen "decrease" (10/100) 0 none } }
    else a
  (a, bus)

/-- Embeds `BOF_Agent.step` (bof_agent.py lines 42-72): defaults, the three
rule tiers, then the blow countdown `max(0, t - 1.0)`. -/
def step (a : Agent) (o : Obs) (message_bus : Option MessageBus) :
    Agent × Option MessageBus :=
  let T_steel := o.T_steel.getD 1650
  let P_bof_gas := o.P_bof_gas.getD 12
  let bof_gas_current := o.bof_gas_current.getD 30000
  let SOC_bofg := o.SOC_bofg.getD (1/2)
  let P_bofg := o.P_bofg.getD 12
  let a := apply_safety_rules a P_bof_gas
  let a := apply_process_rules a T_steel
  let p := apply_energy_rules a bof_gas_current SOC_bofg P_bofg message_bus
  let a := p.1
  let a := { a with time_to_next_blow := max 0 (a.time_to_next_blow - 1) }
  (a, p.2)

end BOF_Agent

/-! ## agents/gas_holder_agent.py -/

namespace GasHolder_Agent

open RuleBasedController SafetyLimits

/-- Embeds the `self.state` dict of `GasHolder_Agent.__init__`. -/
structure ControlState where
  bfg_to_pp : ℚ
  bfg_to_heating : ℚ
  bofg_to_pp : ℚ
  bofg_to_heating : ℚ
  cog_to_heating : ℚ
  cog_to_bf : ℚ
deriving DecidableEq, Repr

/-- Mutable part of a `GasHolder_Agent`; `agent_id` is kept because
`step` looks up bus messages addressed to it. -/
structure Agent where
  agent_id : String
  state : ControlState
  surge_warning_active : Bool
deriving DecidableEq, Repr

/-- Agent constructed by `GasHolder_Agent.__init__` (default id `"GH1"`,
and `main.py` also constructs it with `"GH1"`). -/
def init (agent_id : String) : Agent :=
  { agent_id := agent_id
    state := { bfg_to_pp := 50000, bfg_to_heating := 30000, bofg_to_pp := 20000,
               bofg_to_heating := 10000, cog_to_heating := 8000,
               cog_to_bf := 5000 }
    surge_warning_active := false }

/-- Observation dict consumed by `GasHolder_Agent.step`. -/
structure Obs where
  soc_bfg : Option ℚ
  p_bfg : Option ℚ
  soc_bofg : Option ℚ
  p_bofg : Option ℚ
  soc_cog : Option ℚ
  p_cog : Option ℚ
deriving DecidableEq, Repr

/-- Embeds `GasHolder_Agent._control_bfgh` (gas_holder_agent.py lines
97-163); the Python early `return`s become the if/else chain. -/
def control_bfgh (s : ControlState) (soc p : ℚ) : ControlState :=
  if p > GH_P_EMERGENCY then
    { s with
      bfg_to_pp := incremental_adjust s.bfg_to_pp "increase" (20/100) 0
                     (some 80000),
      bfg_to_heating := incremental_adjust s.bfg_to_heating "increase" (10/100)
                          0 (some 50000) }
  else if soc < GH_SOC_MIN then
    { s with
      bfg_to_pp := incremental_adjust s.bfg_to_pp "decrease" (20/100) 10000 none,
      bfg_to_heating := incremental_adjust s.bfg_to_heating "decrease" (20/100)
                          5000 none }
  else if soc > 85/100 ∨ p > 14 then
    { s with
      bfg_to_pp := incremental_adjust s.bfg_to_pp "increase" (10/100) 0
                     (some 80000),
      bfg_to_heating := incremental_adjust s.bfg_to_heating "increase" (5/100)
                          0 (some 50000) }
  else if soc < 25/100 ∨ p < 9 then
    { s with
      bfg_to_pp := incremental_adjust s.bfg_to_pp "decrease" (10/100) 10000 none,
      bfg_to_heating := incremental_adjust s.bfg_to_heating "decrease" (8/100)
                          5000 none }
  else if (35/100 < soc ∧ soc < 75/100) ∧ (10 < p ∧ p < 13) then
    let nominal_pp : ℚ := 50000
    let nominal_heating : ℚ := 30000
    let s :=
      if s.bfg_to_pp > nominal_pp then
        { s with bfg_to_pp := s.bfg_to_pp * (98/100) }
      else if s.bfg_to_pp < nominal_pp then
        { s with bfg_to_pp := s.bfg_to_pp * (102/100) }
      else s
    let s :=
      if s.bfg_to_heating > nominal_heating then
        { s with bfg_to_heating := s.bfg_to_heating * (98/100) }
      else if s.bfg_to_heating < nominal_heating then
        { s with bfg_to_heating := s.bfg_to_heating * (102/100) }
      else s
    s
  else s

/-- Embeds `GasHolder_Agent._control_bofgh` (gas_holder_agent.py lines
165-206): the surge branch runs first and returns early. -/
def control_bofgh (s : ControlState) (soc p : ℚ) (surge_warning : Bool) :
    ControlState :=
  if surge_warning then
    { s with
      bofg_to_pp := incremental_adjust s.bofg_to_pp "decrease" (20/100) 5000 none,
      bofg_to_heating := incremental_adjust s.bofg_to_heating "decrease"
                           (15/100) 3000 none }
  else if p > GH_P_EMERGENCY then
    { s with bofg_to_pp := incremental_adjust s.bofg_to_pp "increase" (20/100)
               0 (some 40000) }
  else if soc < GH_SOC_MIN then
    { s with bofg_to_pp := incremental_adjust s.bofg_to_pp "decrease" (20/100)
               5000 none }
  else if soc > 85/100 ∨ p > 14 then
    { s with bofg_to_pp := incremental_adjust s.bofg_to_pp "increase" (10/100)
               0 (some 40000) }
  else if soc < 25/100 ∨ p < 9 then
    { s with bofg_to_pp := incremental_adjust s.bofg_to_pp "decrease" (10/100)
               5000 none }
  else s

/-- Embeds `GasHolder_Agent._control_cogh` (gas_holder_agent.py lines
208-248). -/
def control_cogh (s : ControlState) (soc p : ℚ) : ControlState :=
  if p > GH_P_EMERGENCY then
    { s with cog_to_heating := incremental_adjust s.cog_to_heating "increase"
               (20/100) 0 (some 15000) }
  else if soc < GH_SOC_MIN then
    { s with
      cog_to_heating := incremental_adjust s.cog_to_heating "decrease" (20/100)
                          2000 none,
      cog_to_bf := incremental_adjust s.cog_to_bf "decrease" (20/100) 1000 none }
  else if soc > 85/100 ∨ p > 14 then
    { s with
      cog_to_heating := incremental_adjust s.cog_to_heating "increase" (10/100)
                          0 (some 15000),
      cog_to_bf := incremental_adjust s.cog_to_bf "increase" (5/100) 0
                     (some 10000) }
  else if soc < 25/100 ∨ p < 9 then
    { s with
      cog_to_heating := incremental_adjust s.cog_to_heating "decrease" (10/100)
                          2000 none,
      cog_to_bf := incremental_adjust s.cog_to_bf "decrease" (8/100) 1000 none }
  else s

/-- Embeds `GasHolder_Agent.step` (gas_holder_agent.py lines 54-95):
surge-warning lookup on the bus, the three holder controllers, and the
end-of-step reset of the surge flag. -/
def step (a : Agent) (o : Obs) (message_bus : Option MessageBus) : Agent :=
  let soc_bfg := o.soc_bfg.getD (1/2)
  let p_bfg := o.p_bfg.getD 12
  let soc_bofg := o.soc_bofg.getD (1/2)
  let p_bofg := o.p_bofg.getD 12
  let soc_cog := o.soc_cog.getD (1/2)
  let p_cog := o.p_cog.getD 12
  let surge_active :=
    match message_bus with
    | some bus =>
      if bus.get_messages a.agent_id (some MessageType.BOFG_SURGE_WARNING) ≠ []
      then true else a.surge_warning_active
    | none => a.surge_warning_active
  let s := control_bfgh a.state soc_bfg p_bfg
  let s := control_bofgh s soc_bofg p_bofg surge_active
  let s := control_cogh s soc_cog p_cog
  { a with state := s, surge_warning_active := false }

end GasHolder_Agent

/-! ## env/mas_sim_env.py (MAS_SimEnv, twins disabled) -/

namespace MAS_SimEnv

/-- Embeds the `self.state` observation dict of `MAS_SimEnv.__init__`
(mas_sim_env.py lines 95-126). -/
structure ObsState where
  Si : ℚ
  T_hot_metal : ℚ
  pig_iron_production : ℚ
  T_steel : ℚ
  liquid_steel : ℚ
  T_furnace : ℚ
  coke_production : ℚ
  soc_bfg : ℚ
  p_bfg : ℚ
  bfg_supply : ℚ
  soc_bofg : ℚ
  p_bofg : ℚ
  bofg_supply : ℚ
  soc_cog : ℚ
  p_cog : ℚ
  cog_supply : ℚ
  COG_available : ℚ
  O2_available : ℚ
  peak_electricity : Bool
deriving DecidableEq, Repr

/-- The environment: unified bus, clock, gas network and observation state. -/
structure Env where
  message_bus : MessageBus
  time : ℚ
  timestep : ℚ
  gas_network : GasNetwork.State
  state : ObsState
deriving DecidableEq, Repr

/-- Environment constructed by `MAS_SimEnv.__init__`. -/
def init : Env :=
  { message_bus := { messages := [], time := 0 }
    time := 0
    timestep := 1
    gas_network := GasNetwork.initState
    state := { Si := 45/100, T_hot_metal := 1500, pig_iron_production := 200,
               T_steel := 1650, liquid_steel := 95, T_furnace := 1200,
               coke_production := 72,
               soc_bfg := 1/2, p_bfg := 12, bfg_supply := 100000,
               soc_bofg := 1/2, p_bofg := 12, bofg_supply := 30000,
               soc_cog := 1/2, p_cog := 12, cog_supply := 15000,
               COG_available := 15000, O2_available := 50000,
               peak_electricity := false } }

/-- Embeds `self.state.update(gas_network_state.to_dict())`: the
`to_dict` of `GasNetworkState` exports exactly the six SOC/pressure keys. -/
def apply_gas_network_state (s : ObsState) (g : GasNetwork.State) : ObsState :=
  { s with soc_bfg := g.soc_bfg, p_bfg := g.p_bfg,
           soc_bofg := g.soc_bofg, p_bofg := g.p_bofg,
           soc_cog := g.soc_cog, p_cog := g.p_cog }

/-- Embeds `MAS_SimEnv._step_simple_dynamics` (mas_sim_env.py lines
260-287), the in-repository dynamics used when twins are unavailable or
disabled. `bf_action_wind` is `bf_action.get("wind_volume", 4000)` (the
only key this path reads), `gh_action` is the gas-holder action dict
passed whole as the gas demands, and `si_noise` makes the
`np.random.normal(0, 0.01)` draw an explicit input. -/
def step_simple_dynamics (e : Env) (bf_action_wind : Option ℚ)
    (gh_action : List (String × ℚ)) (si_noise : ℚ) : Env :=
  let wind := bf_action_wind.getD 4000
  let s := { e.state with pig_iron_production := wind / 20,
                          bfg_supply := wind * 25 }
  let gas_production :=
    [("bfg", s.bfg_supply), ("bofg", s.bofg_supply), ("cog", s.cog_supply)]
  let g := GasNetwork.update e.gas_network gas_production gh_action e.timestep
  let s := apply_gas_network_state s g
  let s := { s with Si := GasNetwork.npClip (s.Si + si_noise) (3/10) (6/10) }
  { e with gas_network := g, state := s }

/-- Embeds `MAS_SimEnv.step` (mas_sim_env.py lines 150-188) on the
`use_twins = False` path: advance time, update the bus clock, run the
simple dynamics; the returned observation is `get_observations`. -/
def step (e : Env) (bf_action_wind : Option ℚ)
    (gh_action : List (String × ℚ)) (si_noise : ℚ) : Env :=
  let time := e.time + e.timestep
  let e := { e with time := time, message_bus := e.message_bus.update_time time }
  step_simple_dynamics e bf_action_wind gh_action si_noise

/-- Embeds `MAS_SimEnv.get_observations`: a copy of the state dict. -/
def get_observations (e : Env) : ObsState := e.state

/-- Embeds `MAS_SimEnv.reset` (mas_sim_env.py lines 293-309): zero the
clock, clear the bus, reset the gas network, and restore exactly the six
state keys that the source resets. -/
def reset (e : Env) : Env :=
  { e with
    time := 0
    message_bus := e.message_bus.clear
    gas_network := GasNetwork.initState
    state := { e.state with soc_bfg := 1/2, soc_bofg := 1/2, soc_cog := 1/2,
                            Si := 45/100, T_hot_metal := 1500, T_steel := 1650 } }

end MAS_SimEnv

/-! ## Helper lemmas -/

namespace RuleBasedController

lemma clamp_lb (value min_val max_val : ℚ) : min_val ≤ clamp value min_val max_val :=
  le_max_left _ _

lemma clamp_ub {min_val max_val : ℚ} (value : ℚ) (h : min_val ≤ max_val) :
    clamp value min_val max_val ≤ max_val :=
  max_le h (min_le_left _ _)

lemma clamp_le {min_val max_val B : ℚ} (value : ℚ) (h1 : min_val ≤ B)
    (h2 : value ≤ B) : clamp value min_val max_val ≤ B :=
  max_le h1 (le_trans (min_le_right _ _) h2)

lemma ia_inc_some (v s min_val m : ℚ) :
    incremental_adjust v "increase" s min_val (some m) =
      clamp (v * (1 + s)) min_val m := rfl

lemma ia_inc_none (v s min_val : ℚ) :
    incremental_adjust v "increase" s min_val none =
      max min_val (v * (1 + s)) := rfl

lemma ia_dec_some (v s min_val m : ℚ) :
    incremental_adjust v "decrease" s min_val (some m) =
      clamp (v * (1 - s)) min_val m := rfl

lemma ia_dec_none (v s min_val : ℚ) :
    incremental_adjust v "decrease" s min_val none =
      max min_val (v * (1 - s)) := rfl

lemma ia_lb (v : ℚ) (d : String) (s min_val : ℚ) (mo : Option ℚ) :
    min_val ≤ incremental_adjust v d s min_val mo := by
  cases mo <;> exact le_max_left _ _

lemma ia_ub_some {min_val m : ℚ} (v : ℚ) (d : String) (s : ℚ) (h : min_val ≤ m) :
    incremental_adjust v d s min_val (some m) ≤ m :=
  clamp_ub _ h

lemma ia_dec_ub_none {v B s min_val : ℚ} (hB : v ≤ B) (hs : 0 ≤ s)
    (hs1 : s ≤ 1) (hlo : min_val ≤ B) (hB0 : 0 ≤ B) :
    incremental_adjust v "decrease" s min_val none ≤ B := by
  rw [ia_dec_none]
  refine max_le hlo ?_
  nlinarith [mul_nonneg (sub_nonneg.mpr hB) (sub_nonneg.mpr hs1),
    mul_nonneg hB0 hs]

lemma ia_inc_lb_some {c v m s : ℚ} (min_val : ℚ) (hs : 0 ≤ s) (hc0 : 0 ≤ c)
    (hcv : c ≤ v) (hcm : c ≤ m) :
    c ≤ incremental_adjust v "increase" s min_val (some m) := by
  rw [ia_inc_some, clamp]
  exact le_trans (le_min hcm (by nlinarith)) (le_max_right _ _)

end RuleBasedController

namespace GasNetwork

lemma npClip_lb {lo hi : ℚ} (x : ℚ) (h : lo ≤ hi) : lo ≤ npClip x lo hi :=
  le_min h (le_max_left _ _)

lemma npClip_ub (x lo hi : ℚ) : npClip x lo hi ≤ hi :=
  min_le_left _ _

lemma update_holder_bfg (s : State) (net_flow timestep : ℚ) :
    update_holder s "bfg" net_flow timestep =
      { s with
        soc_bfg := npClip (s.soc_bfg + (net_flow / 3600) * timestep * 60 / 400000)
                     (5/100) (95/100)
        p_bfg := 8 + npClip (s.soc_bfg + (net_flow / 3600) * timestep * 60 / 400000)
                       (5/100) (95/100) * 8
        bfg_level := npClip (s.soc_bfg + (net_flow / 3600) * timestep * 60 / 400000)
                       (5/100) (95/100) } := by
  simp [update_holder, capacities, p_min, p_range, List.lookup]

lemma update_holder_bofg (s : State) (net_flow timestep : ℚ) :
    update_holder s "bofg" net_flow timestep =
      { s with
        soc_bofg := npClip (s.soc_bofg + (net_flow / 3600) * timestep * 60 / 150000)
                      (5/100) (95/100)
        p_bofg := 8 + npClip (s.soc_bofg + (net_flow / 3600) * timestep * 60 / 150000)
                        (5/100) (95/100) * 8
        bofg_level := npClip (s.soc_bofg + (net_flow / 3600) * timestep * 60 / 150000)
                        (5/100) (95/100) } := by
  simp [update_holder, capacities, p_min, p_range, List.lookup]

lemma update_holder_cog (s : State) (net_flow timestep : ℚ) :
    update_holder s "cog" net_flow timestep =
      { s with
        soc_cog := npClip (s.soc_cog + (net_flow / 3600) * timestep * 60 / 100000)
                     (5/100) (95/100)
        p_cog := 8 + npClip (s.soc_cog + (net_flow / 3600) * timestep * 60 / 100000)
                       (5/100) (95/100) * 8
        cog_level := npClip (s.soc_cog + (net_flow / 3600) * timestep * 60 / 100000)
                       (5/100) (95/100) } := by
  simp [update_holder, capacities, p_min, p_range, List.lookup]

lemma update_eq (s : State) (gas_production gas_demands : List (String × ℚ))
    (timestep : ℚ) :
    update s gas_production gas_demands timestep =
      { soc_bfg := npClip (s.soc_bfg +
          (calculate_net_flow "bfg" gas_production gas_demands / 3600) *
            timestep * 60 / 400000) (5/100) (95/100)
        p_bfg := 8 + npClip (s.soc_bfg +
          (calculate_net_flow "bfg" gas_production gas_demands / 3600) *
            timestep * 60 / 400000) (5/100) (95/100) * 8
        bfg_level := npClip (s.soc_bfg +
          (calculate_net_flow "bfg" gas_production gas_demands / 3600) *
            timestep * 60 / 400000) (5/100) (95/100)
        soc_bofg := npClip (s.soc_bofg +
          (calculate_net_flow "bofg" gas_production gas_demands / 3600) *
            timestep * 60 / 150000) (5/100) (95/100)
        p_bofg := 8 + npClip (s.soc_bofg +
          (calculate_net_flow "bofg" gas_production gas_demands / 3600) *
            timestep * 60 / 150000) (5/100) (95/100) * 8
        bofg_level := npClip (s.soc_bofg +
          (calculate_net_flow "bofg" gas_production gas_demands / 3600) *
            timestep * 60 / 150000) (5/100) (95/100)
        soc_cog := npClip (s.soc_cog +
          (calculate_net_flow "cog" gas_production gas_demands / 3600) *
            timestep * 60 / 100000) (5/100) (95/100)
        p_cog := 8 + npClip (s.soc_cog +
          (calculate_net_flow "cog" gas_production gas_demands / 3600) *
            timestep * 60 / 100000) (5/100) (95/100) * 8
        cog_level := npClip (s.soc_cog +
          (calculate_net_flow "cog" gas_production gas_demands / 3600) *
            timestep * 60 / 100000) (5/100) (95/100) } := by
  rw [update, update_holder_bfg, update_holder_bofg, update_holder_cog]

lemma update_soc_bfg (s : State) (gp gd : List (String × ℚ)) (ts : ℚ) :
    (update s gp gd ts).soc_bfg =
      npClip (s.soc_bfg + (calculate_net_flow "bfg" gp gd / 3600) * ts * 60 /
        400000) (5/100) (95/100) := by
  rw [update_eq]

lemma update_soc_bofg (s : State) (gp gd : List (String × ℚ)) (ts : ℚ) :
    (update s gp gd ts).soc_bofg =
      npClip (s.soc_bofg + (calculate_net_flow "bofg" gp gd / 3600) * ts * 60 /
        150000) (5/100) (95/100) := by
  rw [update_eq]

lemma update_soc_cog (s : State) (gp gd : List (String × ℚ)) (ts : ℚ) :
    (update s gp gd ts).soc_cog =
      npClip (s.soc_cog + (calculate_net_flow "cog" gp gd / 3600) * ts * 60 /
        100000) (5/100) (95/100) := by
  rw [update_eq]

lemma update_p_bfg (s : State) (gp gd : List (String × ℚ)) (ts : ℚ) :
    (update s gp gd ts).p_bfg = p_min + (update s gp gd ts).soc_bfg * p_range := by
  rw [update_eq]
  rfl

lemma update_p_bofg (s : State) (gp gd : List (String × ℚ)) (ts : ℚ) :
    (update s gp gd ts).p_bofg = p_min + (update s gp gd ts).soc_bofg * p_range := by
  rw [update_eq]
  rfl

lemma update_p_cog (s : State) (gp gd : List (String × ℚ)) (ts : ℚ) :
    (update s gp gd ts).p_cog = p_min + (update s gp gd ts).soc_cog * p_range := by
  rw [update_eq]
  rfl

end GasNetwork

/-! ## Claim C3 -/

/-- C3: after every `GasNetwork.update` call (any production map, demand map
and timestep), and also after construction and after `reset`, each of the
three state-of-charge values lies within `[0.05, 0.95]` and each stored
pressure equals exactly `p_min + soc * p_range = 8.0 + soc * 8.0`. -/
theorem C3_gas_network_soc_bounds_pressure_affine (s : GasNetwork.State)
    (gas_production gas_demands : List (String × ℚ)) (timestep : ℚ) :
    (5/100 ≤ (GasNetwork.update s gas_production gas_demands timestep).soc_bfg ∧
      (GasNetwork.update s gas_production gas_demands timestep).soc_bfg ≤ 95/100 ∧
      (GasNetwork.update s gas_production gas_demands timestep).p_bfg =
        GasNetwork.p_min +
          (GasNetwork.update s gas_production gas_demands timestep).soc_bfg *
            GasNetwork.p_range) ∧
    (5/100 ≤ (GasNetwork.update s gas_production gas_demands timestep).soc_bofg ∧
      (GasNetwork.update s gas_production gas_demands timestep).soc_bofg ≤ 95/100 ∧
      (GasNetwork.update s gas_production gas_demands timestep).p_bofg =
        GasNetwork.p_min +
          (GasNetwork.update s gas_production gas_demands timestep).soc_bofg *
            GasNetwork.p_range) ∧
    (5/100 ≤ (GasNetwork.update s gas_production gas_demands timestep).soc_cog ∧
      (GasNetwork.update s gas_production gas_demands timestep).soc_cog ≤ 95/100 ∧
      (GasNetwork.update s gas_production gas_demands timestep).p_cog =
        GasNetwork.p_min +
          (GasNetwork.update s gas_production gas_demands timestep).soc_cog *
            GasNetwork.p_range) ∧
    (5/100 ≤ GasNetwork.initState.soc_bfg ∧ GasNetwork.initState.soc_bfg ≤ 95/100 ∧
      GasNetwork.initState.p_bfg =
        GasNetwork.p_min + GasNetwork.initState.soc_bfg * GasNetwork.p_range ∧
      5/100 ≤ GasNetwork.initState.soc_bofg ∧ GasNetwork.initState.soc_bofg ≤ 95/100 ∧
      GasNetwork.initState.p_bofg =
        GasNetwork.p_min + GasNetwork.initState.soc_bofg * GasNetwork.p_range ∧
      5/100 ≤ GasNetwork.initState.soc_cog ∧ GasNetwork.initState.soc_cog ≤ 95/100 ∧
      GasNetwork.initState.p_cog =
        GasNetwork.p_min + GasNetwork.initState.soc_cog * GasNetwork.p_range) ∧
    GasNetwork.reset s = GasNetwork.initState := by
  refine ⟨⟨?_, ?_, GasNetwork.update_p_bfg s gas_production gas_demands timestep⟩,
    ⟨?_, ?_, GasNetwork.update_p_bofg s gas_production gas_demands timestep⟩,
    ⟨?_, ?_, GasNetwork.update_p_cog s gas_production gas_demands timestep⟩,
    by norm_num [GasNetwork.initState, GasNetwork.p_min, GasNetwork.p_range], rfl⟩
  · rw [GasNetwork.update_soc_bfg]; exact GasNetwork.npClip_lb _ (by norm_num)
  · rw [GasNetwork.update_soc_bfg]; exact GasNetwork.npClip_ub _ _ _
  · rw [GasNetwork.update_soc_bofg]; exact GasNetwork.npClip_lb _ (by norm_num)
  · rw [GasNetwork.update_soc_bofg]; exact GasNetwork.npClip_ub _ _ _
  · rw [GasNetwork.update_soc_cog]; exact GasNetwork.npClip_lb _ (by norm_num)
  · rw [GasNetwork.update_soc_cog]; exact GasNetwork.npClip_ub _ _ _

/-! ## Claim C6 -/

/-- C6: the concrete coordinator update of the spec: production
`{bfg: 100000}`, demands `{bfg_to_pp: 50000, bfg_to_heating: 30000}`,
timestep `1.0`, BFG capacity `400000`, start SOC `0.5` gives net flow
`20000`, `deltaSOC = (20000/3600)*1.0*60/400000 = 1/1200`, new SOC
`0.5 + 1/1200 = 601/1200` (unchanged by the clip), and pressure exactly
`p_min + newSOC * p_range`. -/
theorem C6_update_concrete_numbers :
    (GasNetwork.capacities.lookup "bfg").getD 0 = 400000 ∧
    GasNetwork.calculate_net_flow "bfg" [("bfg", 100000)]
      [("bfg_to_pp", 50000), ("bfg_to_heating", 30000)] = 20000 ∧
    (GasNetwork.update GasNetwork.initState [("bfg", 100000)]
        [("bfg_to_pp", 50000), ("bfg_to_heating", 30000)] 1).soc_bfg =
      1/2 + (20000/3600) * 1 * 60 / 400000 ∧
    (GasNetwork.update GasNetwork.initState [("bfg", 100000)]
        [("bfg_to_pp", 50000), ("bfg_to_heating", 30000)] 1).soc_bfg = 601/1200 ∧
    (GasNetwork.update GasNetwork.initState [("bfg", 100000)]
        [("bfg_to_pp", 50000), ("bfg_to_heating", 30000)] 1).p_bfg =
      GasNetwork.p_min +
        (GasNetwork.update GasNetwork.initState [("bfg", 100000)]
            [("bfg_to_pp", 50000), ("bfg_to_heating", 30000)] 1).soc_bfg *
          GasNetwork.p_range := by
  have h1 : pyInLower "bfg" "bfg_to_pp" = true := by decide
  have h2 : pyInLower "bfg" "bfg_to_heating" = true := by decide
  have hnet : GasNetwork.calculate_net_flow "bfg" [("bfg", 100000)]
      [("bfg_to_pp", 50000), ("bfg_to_heating", 30000)] = 20000 := by
    norm_num [GasNetwork.calculate_net_flow, List.lookup, List.filter, h1, h2]
  refine ⟨by norm_num [GasNetwork.capacities, List.lookup], hnet, ?_, ?_,
    GasNetwork.update_p_bfg _ _ _ _⟩ <;>
  · rw [GasNetwork.update_soc_bfg, hnet]
    norm_num [GasNetwork.npClip, GasNetwork.initState]

/-! ## Claim C1 -/

/-- C1 counterexample: with the flag active and the value `107` within the
outer thresholds (`[90, 110]` for target 100, bands 10) but NOT inside the
inner half-band `[95, 105]`, `hysteresis_check` returns `false` — the claim
says the flag must stay `true` until the value re-enters the half-band. -/
theorem C1_hysteresis_release_counterexample :
    RuleBasedController.hysteresis_check 107 100 10 10 true = (false, "normal") ∧
    (100 - 10 : ℚ) ≤ 107 ∧ (107 : ℚ) ≤ 100 + 10 ∧
    ¬ ((100 - 10/2 : ℚ) ≤ 107 ∧ (107 : ℚ) ≤ 100 + 10/2) := by
  refine ⟨by norm_num [RuleBasedController.hysteresis_check], by norm_num,
    by norm_num, by norm_num⟩

/-- C1 (amended): for a call with `currentlyActive = true` and a value
within the outer trigger thresholds, the returned flag is `true` exactly
while the value is INSIDE the inner half-band
`[target - lowerBand/2, target + upperBand/2]`, and becomes `false` once
the value is outside that half-band (the converse of the claimed release
rule). -/
theorem C1_hysteresis_release_amended (v t ub lb : ℚ)
    (h1 : t - lb ≤ v) (h2 : v ≤ t + ub) :
    (RuleBasedController.hysteresis_check v t ub lb true).1 = true ↔
      (t - lb/2 ≤ v ∧ v ≤ t + ub/2) := by
  unfold RuleBasedController.hysteresis_check
  split_ifs with ha hb hc
  · exact absurd ha (by linarith)
  · exact absurd hb (by linarith)
  · simpa using hc.2
  · simp only [true_and] at hc
    simpa using hc

/-- Witness for C1's amended theorem at the spec's own inputs
(target 100, bands 10, active flag, value 103). -/
theorem C1_hysteresis_release_amended_witness :
    ((100 - 10 : ℚ) ≤ 103 ∧ (103 : ℚ) ≤ 100 + 10) ∧
    (RuleBasedController.hysteresis_check 103 100 10 10 true).1 = true :=
  ⟨⟨by norm_num, by norm_num⟩,
    (C1_hysteresis_release_amended 103 100 10 10 (by norm_num)
      (by norm_num)).mpr ⟨by norm_num, by norm_num⟩⟩

/-! ## Claim C8 -/

/-- C8: `hysteresis_check` returns an active flag whenever the value is
beyond the outer thresholds, regardless of the incoming flag; with an
active incoming flag it also returns `true` whenever the value lies in
`[target - lowerBand/2, target + upperBand/2]`; and at target 100 with
bands 10, an inactive flag activates at value 112 with reason
`"above_upper_band"` while an active flag at 103 stays active with reason
`"within_hysteresis"`. -/
theorem C8_hysteresis_activation (v t ub lb : ℚ) (st : Bool) :
    ((t + ub < v ∨ v < t - lb) →
      (RuleBasedController.hysteresis_check v t ub lb st).1 = true) ∧
    (st = true → t - lb/2 ≤ v → v ≤ t + ub/2 →
      (RuleBasedController.hysteresis_check v t ub lb st).1 = true) ∧
    RuleBasedController.hysteresis_check 112 100 10 10 false =
      (true, "above_upper_band") ∧
    RuleBasedController.hysteresis_check 103 100 10 10 true =
      (true, "within_hysteresis") := by
  refine ⟨?_, ?_, by norm_num [RuleBasedController.hysteresis_check],
    by norm_num [RuleBasedController.hysteresis_check]⟩
  · intro h
    unfold RuleBasedController.hysteresis_check
    split_ifs with ha hb hc
    · rfl
    · rfl
    · rfl
    · rcases h with h | h
      · exact absurd h ha
      · exact absurd h hb
  · intro hst h1 h2
    subst hst
    unfold RuleBasedController.hysteresis_check
    split_ifs with ha hb hc
    · rfl
    · rfl
    · rfl
    · exact absurd ⟨rfl, h1, h2⟩ hc

/-- Witness for C8 with each hypothesis discharged at concrete inputs. -/
theorem C8_hysteresis_activation_witness :
    (RuleBasedController.hysteresis_check 112 100 10 10 false).1 = true ∧
    (RuleBasedController.hysteresis_check 96 100 10 10 true).1 = true :=
  ⟨(C8_hysteresis_activation 112 100 10 10 false).1 (Or.inl (by norm_num)),
    (C8_hysteresis_activation 96 100 10 10 true).2.1 rfl (by norm_num)
      (by norm_num)⟩

/-! ## Claim C7 -/

/-- Penalty contributed by one SOC value in `calculate_reward`. -/
def penFun (soc : ℚ) : ℚ :=
  if soc < 25/100 then 25/100 - soc
  else if soc > 85/100 then soc - 85/100
  else 0

lemma total_soc_penalty_eq (n : StandardState) :
    total_soc_penalty n =
      penFun n.gas_holder.soc_bfg + penFun n.gas_holder.soc_bofg +
        penFun n.gas_holder.soc_cog := by
  simp only [total_soc_penalty, soc_penalties, penFun, List.filterMap]
  split_ifs <;> simp <;> ring

lemma penFun_nonneg (soc : ℚ) : 0 ≤ penFun soc := by
  unfold penFun
  split_ifs <;> linarith

lemma penFun_eq_zero_iff (soc : ℚ) :
    penFun soc = 0 ↔ (25/100 ≤ soc ∧ soc ≤ 85/100) := by
  unfold penFun
  split_ifs <;> constructor <;> intro h <;>
    first
    | exact ⟨by linarith, by linarith⟩
    | linarith [h.1, h.2]

lemma total_soc_penalty_nonneg (n : StandardState) : 0 ≤ total_soc_penalty n := by
  rw [total_soc_penalty_eq]
  have h1 := penFun_nonneg n.gas_holder.soc_bfg
  have h2 := penFun_nonneg n.gas_holder.soc_bofg
  have h3 := penFun_nonneg n.gas_holder.soc_cog
  linarith

lemma stability_score_eq (state : StandardState) (action : StandardAction)
    (n : StandardState) :
    (calculate_reward state action n).stability_score =
      max 0 (1 - total_soc_penalty n * 2) := rfl

/-- C7 counterexample: two next-states whose SOC values are all strictly
below the `[0.25, 0.85]` band, the second strictly farther outside than
the first, yet both stability scores are `0` — the score saturates, so it
is not strictly decreasing as an SOC moves farther outside the band. -/
theorem C7_stability_strict_decrease_counterexample :
    (1/20 : ℚ) < 3/50 ∧ (3/50 : ℚ) < 25/100 ∧
    (calculate_reward (create_default_state 0) create_default_action
        { create_default_state 0 with gas_holder :=
          { (create_default_state 0).gas_holder with
            soc_bfg := 3/50, soc_bofg := 3/50, soc_cog := 3/50 } }).stability_score
      = 0 ∧
    (calculate_reward (create_default_state 0) create_default_action
        { create_default_state 0 with gas_holder :=
          { (create_default_state 0).gas_holder with
            soc_bfg := 1/20, soc_bofg := 1/20, soc_cog := 1/20 } }).stability_score
      = 0 := by
  refine ⟨by norm_num, by norm_num, ?_, ?_⟩ <;>
  · rw [stability_score_eq, total_soc_penalty_eq]
    norm_num [penFun, create_default_state]

/-- C7 (amended): `stability_score == 1.0` iff all three next-state SOC
values lie within `[0.25, 0.85]`; the score is antitone in the total
out-of-band penalty and STRICTLY decreasing only while it is still
positive — it saturates at `0` once the total penalty reaches `0.5`. -/
theorem C7_stability_score_amended (state : StandardState)
    (action : StandardAction) (n1 n2 : StandardState) :
    ((calculate_reward state action n1).stability_score = 1 ↔
      ((25/100 ≤ n1.gas_holder.soc_bfg ∧ n1.gas_holder.soc_bfg ≤ 85/100) ∧
        (25/100 ≤ n1.gas_holder.soc_bofg ∧ n1.gas_holder.soc_bofg ≤ 85/100) ∧
        (25/100 ≤ n1.gas_holder.soc_cog ∧ n1.gas_holder.soc_cog ≤ 85/100))) ∧
    (total_soc_penalty n1 ≤ total_soc_penalty n2 →
      (calculate_reward state action n2).stability_score ≤
        (calculate_reward state action n1).stability_score) ∧
    (total_soc_penalty n1 < total_soc_penalty n2 →
      0 < (calculate_reward state action n1).stability_score →
      (calculate_reward state action n2).stability_score <
        (calculate_reward state action n1).stability_score) := by
  refine ⟨?_, ?_, ?_⟩
  · rw [stability_score_eq]
    have h0 := total_soc_penalty_nonneg n1
    constructor
    · intro h
      have hT : total_soc_penalty n1 = 0 := by
        rcases max_cases 0 (1 - total_soc_penalty n1 * 2) with ⟨he, _⟩ | ⟨he, _⟩ <;>
          rw [he] at h <;> linarith
      rw [total_soc_penalty_eq] at hT
      have h1 := penFun_nonneg n1.gas_holder.soc_bfg
      have h2 := penFun_nonneg n1.gas_holder.soc_bofg
      have h3 := penFun_nonneg n1.gas_holder.soc_cog
      refine ⟨(penFun_eq_zero_iff _).mp (by linarith),
        (penFun_eq_zero_iff _).mp (by linarith),
        (penFun_eq_zero_iff _).mp (by linarith)⟩
    · intro ⟨hb1, hb2, hb3⟩
      have hT : total_soc_penalty n1 = 0 := by
        rw [total_soc_penalty_eq, (penFun_eq_zero_iff _).mpr hb1,
          (penFun_eq_zero_iff _).mpr hb2, (penFun_eq_zero_iff _).mpr hb3]
        ring
      rw [hT]
      norm_num
  · intro h
    rw [stability_score_eq, stability_score_eq]
    exact max_le_max (le_refl 0) (by linarith)
  · intro h hpos
    rw [stability_score_eq] at hpos ⊢
    rw [stability_score_eq]
    have h1 : 0 < 1 - total_soc_penalty n1 * 2 := by
      rcases max_cases (0 : ℚ) (1 - total_soc_penalty n1 * 2) with ⟨he, _⟩ | ⟨he, hl⟩ <;>
        rw [he] at hpos <;> first | exact absurd hpos (lt_irrefl 0) | exact hpos
    have hm : max 0 (1 - total_soc_penalty n1 * 2) = 1 - total_soc_penalty n1 * 2 :=
      max_eq_right (le_of_lt h1)
    rw [hm]
    exact max_lt h1 (by linarith)

/-- Witness for C7's amended theorem: the default in-band state has score 1,
and pushing all three SOCs to 0.05 strictly lowers the score. -/
theorem C7_stability_score_amended_witness :
    (calculate_reward (create_default_state 0) create_default_action
        { create_default_state 0 with gas_holder :=
          { (create_default_state 0).gas_holder with
            soc_bfg := 1/20, soc_bofg := 1/20, soc_cog := 1/20 } }).stability_score
      < (calculate_reward (create_default_state 0) create_default_action
          (create_default_state 0)).stability_score :=
  (C7_stability_score_amended (create_default_state 0) create_default_action
      (create_default_state 0)
      { create_default_state 0 with gas_holder :=
        { (create_default_state 0).gas_holder with
          soc_bfg := 1/20, soc_bofg := 1/20, soc_cog := 1/20 } }).2.2
    (by rw [total_soc_penalty_eq, total_soc_penalty_eq]
        norm_num [penFun, create_default_state])
    (by rw [stability_score_eq, total_soc_penalty_eq]
        norm_num [penFun, create_default_state])

/-! ## Claim C9 -/

namespace BOF_Agent

lemma safety_ttb (a : Agent) (P : ℚ) :
    (apply_safety_rules a P).time_to_next_blow = a.time_to_next_blow := rfl

lemma safety_blow_duration (a : Agent) (P : ℚ) :
    (apply_safety_rules a P).state.blow_duration = a.state.blow_duration := by
  simp only [apply_safety_rules]
  split_ifs <;> rfl

lemma process_ttb (a : Agent) (T : ℚ) :
    (apply_process_rules a T).time_to_next_blow = a.time_to_next_blow := by
  simp only [apply_process_rules]
  split_ifs <;> rfl

lemma process_blow_duration (a : Agent) (T : ℚ) :
    (apply_process_rules a T).state.blow_duration = a.state.blow_duration := by
  simp only [apply_process_rules]
  split_ifs <;> rfl

lemma step_bus_eq (a : Agent) (o : Obs) (mb : Option MessageBus) :
    (step a o mb).2 =
      (match mb with
       | some b =>
         if a.time_to_next_blow ≤ 2 then
           some (b.send
             ((BOFGSurgeWarning.mk a.time_to_next_blow 60000 a.state.blow_duration
                 (o.SOC_bofg.getD (1/2))).to_message b.time))
         else some b
       | none => none) := by
  cases mb with
  | none => simp only [step, apply_energy_rules]
  | some b =>
    simp only [step, apply_energy_rules, process_ttb, safety_ttb,
      process_blow_duration, safety_blow_duration]

end BOF_Agent

/-- C9: whenever `BOF_Agent.step` runs with a non-`None` bus while the blow
countdown is `<= 2.0`, exactly one `BOFG_SURGE_WARNING` message is appended
to the bus in that step, with `time_to_blow`, `expected_peak`, `duration`
and the current buffer SOC populated from the agent's state and
observation; with a countdown `> 2.0` the bus is returned unchanged, and
with no bus nothing is sent. -/
theorem C9_bof_surge_warning_emission (a : BOF_Agent.Agent)
    (o : BOF_Agent.Obs) (b : MessageBus) :
    (a.time_to_next_blow ≤ 2 →
      (BOF_Agent.step a o (some b)).2 = some
        { messages := b.messages ++
            [{ msg_type := MessageType.BOFG_SURGE_WARNING
               sender := "BOFAgent"
               receiver := "GasHolderAgent"
               timestamp := b.time
               data := [("time_to_blow", a.time_to_next_blow),
                        ("expected_peak", 60000),
                        ("duration", a.state.blow_duration),
                        ("gh_soc", o.SOC_bofg.getD (1/2))] }]
          time := b.time }) ∧
    (2 < a.time_to_next_blow → (BOF_Agent.step a o (some b)).2 = some b) ∧
    (BOF_Agent.step a o none).2 = none := by
  refine ⟨?_, ?_, ?_⟩
  · intro h
    rw [BOF_Agent.step_bus_eq]
    simp only [if_pos h, BOFGSurgeWarning.to_message, MessageBus.send]
  · intro h
    rw [BOF_Agent.step_bus_eq]
    simp only [if_neg (not_le.mpr h)]
  · rw [BOF_Agent.step_bus_eq]

/-- Witness for C9: a BOF agent one minute from its blow, stepped with an
empty bus at time 7, appends exactly the surge-warning message; the
freshly constructed agent (countdown 30) leaves the bus unchanged. -/
theorem C9_bof_surge_warning_emission_witness :
    (BOF_Agent.step { BOF_Agent.init with time_to_next_blow := 1 }
        { T_steel := none, P_bof_gas := none, bof_gas_current := none,
          SOC_bofg := some (3/10), P_bofg := none }
        (some { messages := [], time := 7 })).2 = some
      { messages := [{ msg_type := MessageType.BOFG_SURGE_WARNING
                       sender := "BOFAgent"
                       receiver := "GasHolderAgent"
                       timestamp := 7
                       data := [("time_to_blow", 1), ("expected_peak", 60000),
                                ("duration", 18), ("gh_soc", 3/10)] }]
        time := 7 } ∧
    (BOF_Agent.step BOF_Agent.init
        { T_steel := none, P_bof_gas := none, bof_gas_current := none,
          SOC_bofg := none, P_bofg := none }
        (some { messages := [], time := 7 })).2 =
      some { messages := [], time := 7 } :=
  ⟨(C9_bof_surge_warning_emission { BOF_Agent.init with time_to_next_blow := 1 }
      { T_steel := none, P_bof_gas := none, bof_gas_current := none,
        SOC_bofg := some (3/10), P_bofg := none }
      { messages := [], time := 7 }).1 (by norm_num),
    (C9_bof_surge_warning_emission BOF_Agent.init
      { T_steel := none, P_bof_gas := none, bof_gas_current := none,
        SOC_bofg := none, P_bofg := none }
      { messages := [], time := 7 }).2.1 (by norm_num [BOF_Agent.init])⟩

/-! ## Claim C4 -/

lemma get_messages_eq_nil_of_receiver_mismatch (b : MessageBus) (r : String)
    (t : Option MessageType)
    (h : ∀ m ∈ b.messages, m.receiver ≠ r ∧ m.receiver ≠ "all") :
    b.get_messages r t = [] := by
  have hfil : b.messages.filter
      (fun msg => decide (msg.receiver = r ∨ msg.receiver = "all")) = [] := by
    rw [List.filter_eq_nil_iff]
    intro m hm
    simp only [decide_eq_true_eq]
    rcases h m hm with ⟨h1, h2⟩
    rintro (h3 | h3) <;> [exact h1 h3; exact h2 h3]
  cases t <;> simp only [MessageBus.get_messages, hfil, List.filter_nil]

/-- C4: the surge-warning delivery path is broken wiring. The warning the
secondary-unit (BOF) agent publishes is addressed to `"GasHolderAgent"`,
but the gas-holder agent is constructed with id `"GH1"` (both in
`GasHolder_Agent.__init__`'s default and in `main.py`), so
`get_messages("GH1", BOFG_SURGE_WARNING)` filters every such warning out:
a gas-holder step with a bus holding only BOF-addressed messages behaves
exactly as a step with no bus at all, and the pre-emptive BOFG outflow
reduction never runs. (In `run_mas_simulation` the agents are additionally
stepped without any bus argument, so the warning is never even published
during the driver loop.) -/
theorem C4_surge_warning_never_delivered (a : GasHolder_Agent.Agent)
    (o : GasHolder_Agent.Obs) (b : MessageBus) (tb pk du so ts : ℚ)
    (hid : a.agent_id = "GH1")
    (hmsgs : ∀ m ∈ b.messages, m.receiver = "GasHolderAgent") :
    ((BOFGSurgeWarning.mk tb pk du so).to_message ts).receiver =
      "GasHolderAgent" ∧
    GasHolder_Agent.step a o (some b) = GasHolder_Agent.step a o none := by
  refine ⟨rfl, ?_⟩
  have hempty : b.get_messages a.agent_id (some MessageType.BOFG_SURGE_WARNING)
      = [] := by
    refine get_messages_eq_nil_of_receiver_mismatch b a.agent_id _ ?_
    intro m hm
    rw [hmsgs m hm, hid]
    refine ⟨by decide, by decide⟩
  simp only [GasHolder_Agent.step, hempty]
  simp

/-- Witness for C4: the concrete `main.py` configuration — gas-holder agent
`"GH1"`, default observations, and a bus holding exactly one surge warning
as the BOF agent sends it — behaves identically to running with no bus. -/
theorem C4_surge_warning_never_delivered_witness :
    GasHolder_Agent.step (GasHolder_Agent.init "GH1")
      { soc_bfg := none, p_bfg := none, soc_bofg := none, p_bofg := none,
        soc_cog := none, p_cog := none }
      (some { messages := [(BOFGSurgeWarning.mk 1 60000 18 (1/2)).to_message 7],
              time := 7 }) =
    GasHolder_Agent.step (GasHolder_Agent.init "GH1")
      { soc_bfg := none, p_bfg := none, soc_bofg := none, p_bofg := none,
        soc_cog := none, p_cog := none } none :=
  (C4_surge_warning_never_delivered (GasHolder_Agent.init "GH1")
    { soc_bfg := none, p_bfg := none, soc_bofg := none, p_bofg := none,
      soc_cog := none, p_cog := none }
    { messages := [(BOFGSurgeWarning.mk 1 60000 18 (1/2)).to_message 7],
      time := 7 } 1 60000 18 (1/2) 7 rfl
    (by intro m hm
        simp only [List.mem_singleton] at hm
        rw [hm]
        rfl)).2

/-! ## Claim C2 -/

namespace BF_Agent

open RuleBasedController SafetyLimits

/-- The table-bounded controllable quantities of the blast-furnace agent
within their `SafetyLimits` bounds. -/
def Inv (a : Agent) : Prop :=
  1000 ≤ a.state.wind_volume ∧ a.state.wind_volume ≤ 8000 ∧
    0 ≤ a.state.O2_enrichment ∧ a.state.O2_enrichment ≤ 6 ∧
    0 ≤ a.state.PCI ∧ a.state.PCI ≤ 200

lemma q_1000_le_8000 : (1000 : ℚ) ≤ 8000 := by norm_num
lemma q_0_le_6 : (0 : ℚ) ≤ 6 := by norm_num
lemma q_0_le_200 : (0 : ℚ) ≤ 200 := by norm_num
lemma q_0_le_8000 : (0 : ℚ) ≤ 8000 := by norm_num
lemma q_0_le_1000 : (0 : ℚ) ≤ 1000 := by norm_num

lemma hard_limits_inv (a : Agent) (h : Inv a) : Inv (safety_hard_limits a) := by
  obtain ⟨h1, h2, h3, h4, h5, h6⟩ := h
  exact ⟨clamp_lb _ _ _, clamp_ub _ q_1000_le_8000, clamp_lb _ _ _,
    clamp_ub _ q_0_le_6, h5, h6⟩

lemma temp_protection_inv (a : Agent) (T : ℚ) (h : Inv a) :
    Inv (safety_temp_protection a T) := by
  obtain ⟨h1, h2, h3, h4, h5, h6⟩ := h
  have s1 : (0 : ℚ) ≤ 20/100 := by norm_num
  have s2 : (20 : ℚ)/100 ≤ 1 := by norm_num
  unfold safety_temp_protection
  split_ifs
  · exact ⟨h1, h2, ia_lb _ _ _ _ _, ia_dec_ub_none h4 s1 s2 q_0_le_6 q_0_le_6,
      ia_lb _ _ _ _ _, ia_dec_ub_none h6 s1 s2 q_0_le_200 q_0_le_200⟩
  · exact ⟨h1, h2, h3, h4, h5, h6⟩

lemma si_protection_inv (a : Agent) (Si : ℚ) (h : Inv a) :
    Inv (safety_si_protection a Si) := by
  obtain ⟨h1, h2, h3, h4, h5, h6⟩ := h
  have s1 : (0 : ℚ) ≤ 5/100 := by norm_num
  have s2 : (5 : ℚ)/100 ≤ 1 := by norm_num
  unfold safety_si_protection
  split_ifs
  · exact ⟨h1, h2, h3, h4, ia_lb _ _ _ _ _,
      ia_dec_ub_none h6 s1 s2 q_0_le_200 q_0_le_200⟩
  · exact ⟨h1, h2, h3, h4, h5, h6⟩

lemma safety_inv (a : Agent) (Si T_hot_metal O2_available : ℚ) (h : Inv a) :
    Inv (apply_safety_rules a Si T_hot_metal O2_available) :=
  si_protection_inv _ _ (temp_protection_inv _ _ (hard_limits_inv _ h))

lemma si_high_inv (a : Agent) (Si : ℚ) (h : Inv a) : Inv (process_si_high a Si) := by
  obtain ⟨h1, h2, h3, h4, h5, h6⟩ := h
  have s1 : (0 : ℚ) ≤ 10/100 := by norm_num
  have s2 : (10 : ℚ)/100 ≤ 1 := by norm_num
  unfold process_si_high
  split_ifs
  · exact ⟨h1, h2, ia_lb _ _ _ _ _, ia_dec_ub_none h4 s1 s2 q_0_le_6 q_0_le_6,
      ia_lb _ _ _ _ _, ia_dec_ub_none h6 s1 s2 q_0_le_200 q_0_le_200⟩
  · exact ⟨h1, h2, h3, h4, h5, h6⟩
  · exact ⟨h1, h2, h3, h4, h5, h6⟩

lemma si_low_inv (a : Agent) (Si : ℚ) (h : Inv a) : Inv (process_si_low a Si) := by
  obtain ⟨h1, h2, h3, h4, h5, h6⟩ := h
  have s1 : (0 : ℚ) ≤ 10/100 := by norm_num
  unfold process_si_low
  split_ifs
  · exact ⟨ia_inc_lb_some 0 s1 q_0_le_1000 h1 q_1000_le_8000,
      ia_ub_some _ _ _ q_0_le_8000, h3, h4, ia_lb _ _ _ _ _,
      ia_ub_some _ _ _ q_0_le_200⟩
  · exact ⟨h1, h2, h3, h4, h5, h6⟩
  · exact ⟨h1, h2, h3, h4, h5, h6⟩

lemma process_inv (a : Agent) (Si : ℚ) (h : Inv a) :
    Inv (apply_process_rules a Si) :=
  si_low_inv _ _ (si_high_inv _ _ h)

lemma gh_full_inv (a : Agent) (SOC P : ℚ) (h : Inv a) :
    Inv (energy_gh_full a SOC P) := by
  obtain ⟨h1, h2, h3, h4, h5, h6⟩ := h
  have s1 : (0 : ℚ) ≤ 15/100 := by norm_num
  have s2 : (15 : ℚ)/100 ≤ 1 := by norm_num
  have s3 : (0 : ℚ) ≤ 12/100 := by norm_num
  have s4 : (12 : ℚ)/100 ≤ 1 := by norm_num
  unfold energy_gh_full
  split_ifs
  · exact ⟨ia_lb _ _ _ _ _, ia_dec_ub_none h2 s1 s2 q_1000_le_8000 q_0_le_8000,
      ia_lb _ _ _ _ _, ia_dec_ub_none h4 s1 s2 q_0_le_6 q_0_le_6,
      ia_lb _ _ _ _ _, ia_dec_ub_none h6 s3 s4 q_0_le_200 q_0_le_200⟩
  · exact ⟨h1, h2, h3, h4, h5, h6⟩
  · exact ⟨h1, h2, h3, h4, h5, h6⟩

lemma gh_empty_inv (a : Agent) (SOC P : ℚ) (h : Inv a) :
    Inv (energy_gh_empty a SOC P) := by
  obtain ⟨h1, h2, h3, h4, h5, h6⟩ := h
  have s1 : (0 : ℚ) ≤ 15/100 := by norm_num
  have s3 : (0 : ℚ) ≤ 12/100 := by norm_num
  unfold energy_gh_empty
  split_ifs
  · exact ⟨ia_inc_lb_some 0 s1 q_0_le_1000 h1 q_1000_le_8000,
      ia_ub_some _ _ _ q_0_le_8000, h3, h4, ia_lb _ _ _ _ _,
      ia_ub_some _ _ _ q_0_le_200⟩
  · exact ⟨h1, h2, h3, h4, h5, h6⟩
  · exact ⟨h1, h2, h3, h4, h5, h6⟩

lemma cog_shortage_inv (a : Agent) (CA CR : ℚ) (h : Inv a) :
    Inv (energy_cog_shortage a CA CR) := by
  obtain ⟨h1, h2, h3, h4, h5, h6⟩ := h
  unfold energy_cog_shortage
  split_ifs
  · exact ⟨h1, h2, h3, h4, ia_lb _ _ _ _ _, ia_ub_some _ _ _ q_0_le_200⟩
  · exact ⟨h1, h2, h3, h4, h5, h6⟩

lemma o2_shortage_inv (a : Agent) (OA : ℚ) (h : Inv a) :
    Inv (energy_o2_shortage a OA) := by
  obtain ⟨h1, h2, h3, h4, h5, h6⟩ := h
  have s1 : (0 : ℚ) ≤ 10/100 := by norm_num
  have s2 : (10 : ℚ)/100 ≤ 1 := by norm_num
  unfold energy_o2_shortage
  split_ifs
  · exact ⟨h1, h2, ia_lb _ _ _ _ _, ia_dec_ub_none h4 s1 s2 q_0_le_6 q_0_le_6,
      ia_lb _ _ _ _ _, ia_ub_some _ _ _ q_0_le_200⟩
  · exact ⟨h1, h2, h3, h4, h5, h6⟩

lemma energy_inv (a : Agent) (SOC P CA CR OA : ℚ) (h : Inv a) :
    Inv (apply_energy_rules a SOC P CA CR OA) :=
  o2_shortage_inv _ _ (cog_shortage_inv _ _ _ (gh_empty_inv _ _ _
    (gh_full_inv _ _ _ h)))

lemma econ_inv (a : Agent) (peak : Bool) (h : Inv a) :
    Inv (apply_economic_rules a peak) := by
  obtain ⟨h1, h2, h3, h4, h5, h6⟩ := h
  have s1 : (0 : ℚ) ≤ 5/100 := by norm_num
  have s2 : (5 : ℚ)/100 ≤ 1 := by norm_num
  unfold apply_economic_rules
  split_ifs
  · exact ⟨ia_lb _ _ _ _ _, ia_dec_ub_none h2 s1 s2 q_1000_le_8000 q_0_le_8000,
      h3, h4, h5, h6⟩
  · exact ⟨h1, h2, h3, h4, h5, h6⟩

lemma step_inv (a : Agent) (o : Obs) (h : Inv a) : Inv (step a o) :=
  econ_inv _ _ (energy_inv _ _ _ _ _ _ (process_inv _ _ (safety_inv _ _ _ _ h)))

lemma foldl_step_inv (l : List Obs) (a : Agent) (h : Inv a) :
    Inv (l.foldl step a) := by
  induction l generalizing a with
  | nil => exact h
  | cons o t ih => exact ih _ (step_inv _ _ h)

lemma init_inv : Inv init := by
  refine ⟨?_, ?_, ?_, ?_, ?_, ?_⟩ <;> norm_num [init]

end BF_Agent

/-- C2: starting from the constructed initial state of the blast-furnace
agent, after every sequence of `step` calls with arbitrary observations
(absent keys modelled as `none`, values arbitrary rationals), the
table-bounded controllable quantities respect their `SafetyLimits`:
`wind_volume ∈ [BF_WIND_MIN, BF_WIND_MAX] = [1000, 8000]`,
`O2_enrichment ∈ [0, BF_O2_MAX] = [0, 6]` and
`PCI ∈ [0, BF_PCI_MAX] = [0, 200]`. The embedded `step` is a total
function, so no run raises an exception. -/
theorem C2_bf_agent_safety_bounds (obs_list : List BF_Agent.Obs) :
    SafetyLimits.BF_WIND_MIN ≤
      (obs_list.foldl BF_Agent.step BF_Agent.init).state.wind_volume ∧
    (obs_list.foldl BF_Agent.step BF_Agent.init).state.wind_volume ≤
      SafetyLimits.BF_WIND_MAX ∧
    0 ≤ (obs_list.foldl BF_Agent.step BF_Agent.init).state.O2_enrichment ∧
    (obs_list.foldl BF_Agent.step BF_Agent.init).state.O2_enrichment ≤
      SafetyLimits.BF_O2_MAX ∧
    0 ≤ (obs_list.foldl BF_Agent.step BF_Agent.init).state.PCI ∧
    (obs_list.foldl BF_Agent.step BF_Agent.init).state.PCI ≤
      SafetyLimits.BF_PCI_MAX :=
  BF_Agent.foldl_step_inv obs_list BF_Agent.init BF_Agent.init_inv

/-! ## Claim C10 -/

/-- C10 counterexample: one simulation step from the initial environment
(with empty gas demands, so the BFG holder charges), followed by `reset`,
returns an observation whose `p_bfg` is `361/30 ≈ 12.033`, not the
documented initial default `12.0`: `reset` never restores the pressure
observation fields. -/
theorem C10_reset_counterexample :
    (MAS_SimEnv.reset (MAS_SimEnv.step MAS_SimEnv.init none [] 0)).state.p_bfg
      = 361/30 ∧
    (361/30 : ℚ) ≠ 12 ∧
    MAS_SimEnv.init.state.p_bfg = 12 := by
  refine ⟨?_, by norm_num, rfl⟩
  show (GasNetwork.update MAS_SimEnv.init.gas_network
      [("bfg", ((none : Option ℚ).getD 4000) * 25),
       ("bofg", MAS_SimEnv.init.state.bofg_supply),
       ("cog", MAS_SimEnv.init.state.cog_supply)]
      [] MAS_SimEnv.init.timestep).p_bfg = 361/30
  have hnet : GasNetwork.calculate_net_flow "bfg"
      [("bfg", ((none : Option ℚ).getD 4000) * 25),
       ("bofg", MAS_SimEnv.init.state.bofg_supply),
       ("cog", MAS_SimEnv.init.state.cog_supply)] [] = 100000 := by
    norm_num [GasNetwork.calculate_net_flow, List.lookup]
  rw [GasNetwork.update_p_bfg, GasNetwork.update_soc_bfg, hnet]
  norm_num [GasNetwork.npClip, GasNetwork.p_min, GasNetwork.p_range,
    MAS_SimEnv.init, GasNetwork.initState, min_def, max_def]

/-- C10 (amended): `reset` zeroes simulation time, empties the message bus,
resets the gas network to its nominal baseline (SOC 0.5, pressure 12.0 per
gas type), and restores the defaults of exactly the six observation fields
the source resets (`soc_bfg`, `soc_bofg`, `soc_cog`, `Si`, `T_hot_metal`,
`T_steel`); every other observation field (the pressures, supplies,
productions, temperatures, resource figures and the peak flag) keeps its
pre-reset value. -/
theorem C10_reset_amended (e : MAS_SimEnv.Env) :
    (MAS_SimEnv.reset e).time = 0 ∧
    (MAS_SimEnv.reset e).message_bus.messages = [] ∧
    (MAS_SimEnv.reset e).gas_network = GasNetwork.initState ∧
    GasNetwork.initState.soc_bfg = 1/2 ∧ GasNetwork.initState.p_bfg = 12 ∧
    GasNetwork.initState.soc_bofg = 1/2 ∧ GasNetwork.initState.p_bofg = 12 ∧
    GasNetwork.initState.soc_cog = 1/2 ∧ GasNetwork.initState.p_cog = 12 ∧
    (MAS_SimEnv.reset e).state.soc_bfg = 1/2 ∧
    (MAS_SimEnv.reset e).state.soc_bofg = 1/2 ∧
    (MAS_SimEnv.reset e).state.soc_cog = 1/2 ∧
    (MAS_SimEnv.reset e).state.Si = 45/100 ∧
    (MAS_SimEnv.reset e).state.T_hot_metal = 1500 ∧
    (MAS_SimEnv.reset e).state.T_steel = 1650 ∧
    (MAS_SimEnv.reset e).state.p_bfg = e.state.p_bfg ∧
    (MAS_SimEnv.reset e).state.p_bofg = e.state.p_bofg ∧
    (MAS_SimEnv.reset e).state.p_cog = e.state.p_cog ∧
    (MAS_SimEnv.reset e).state.bfg_supply = e.state.bfg_supply ∧
    (MAS_SimEnv.reset e).state.bofg_supply = e.state.bofg_supply ∧
    (MAS_SimEnv.reset e).state.cog_supply = e.state.cog_supply ∧
    (MAS_SimEnv.reset e).state.pig_iron_production = e.state.pig_iron_production ∧
    (MAS_SimEnv.reset e).state.liquid_steel = e.state.liquid_steel ∧
    (MAS_SimEnv.reset e).state.T_furnace = e.state.T_furnace ∧
    (MAS_SimEnv.reset e).state.coke_production = e.state.coke_production ∧
    (MAS_SimEnv.reset e).state.COG_available = e.state.COG_available ∧
    (MAS_SimEnv.reset e).state.O2_available = e.state.O2_available ∧
    (MAS_SimEnv.reset e).state.peak_electricity = e.state.peak_electricity := by
  exact ⟨rfl, rfl, rfl, rfl, rfl, rfl, rfl, rfl, rfl, rfl, rfl, rfl, rfl, rfl,
    rfl, rfl, rfl, rfl, rfl, rfl, rfl, rfl, rfl, rfl, rfl, rfl, rfl, rfl⟩

/-! ## Claim C5 -/

namespace RuleBasedController

instance instIsTotalPrioGE (p : List (String × Int)) : IsTotal String (prioGE p) :=
  ⟨fun a b => le_total (prio p b) (prio p a)⟩

instance instIsTransPrioGE (p : List (String × Int)) : IsTrans String (prioGE p) :=
  ⟨fun _ _ _ hab hbc => le_trans hbc hab⟩

lemma lookup_mem {β : Type} {l : List (String × β)} {c : String} {v : β}
    (h : l.lookup c = some v) : (c, v) ∈ l := by
  induction l with
  | nil => simp at h
  | cons p t ih =>
    obtain ⟨k, b⟩ := p
    rw [List.lookup_cons] at h
    cases hck : c == k
    · rw [hck] at h
      exact List.mem_cons_of_mem _ (ih h)
    · rw [hck] at h
      have hc : c = k := eq_of_beq hck
      obtain rfl := hc
      obtain rfl : b = v := Option.some.inj h
      exact List.mem_cons_self _ _

lemma demVal_nonneg {d : List (String × ℚ)} (hd : ∀ p ∈ d, 0 ≤ p.2) (c : String) :
    0 ≤ (d.lookup c).getD 0 := by
  cases h : d.lookup c with
  | none => simp
  | some v => simpa using hd _ (lookup_mem h)

lemma loop_sum_le (d : List (String × ℚ)) (hd : ∀ p ∈ d, 0 ≤ p.2)
    (l : List String) : ∀ (r : ℚ), 0 ≤ r →
      ((allocate_loop d r l).map Prod.snd).sum ≤ r := by
  induction l with
  | nil => intro r hr; simpa [allocate_loop] using hr
  | cons c rest ih =>
    intro r hr
    have hdem := demVal_nonneg hd c
    simp only [allocate_loop]
    split_ifs with hstop
    · simp only [List.map_cons, List.map_nil, List.sum_cons, List.sum_nil,
        add_zero]
      exact min_le_right ((d.lookup c).getD 0) r
    · simp only [List.map_cons, List.sum_cons]
      have hrem : 0 ≤ r - min ((d.lookup c).getD 0) r := le_of_lt (by linarith)
      have := ih (r - min ((d.lookup c).getD 0) r) hrem
      linarith

lemma fill_snd_sum (ks : List String) :
    ((ks.map (fun c => (c, (0 : ℚ)))).map Prod.snd).sum = 0 := by
  induction ks with
  | nil => rfl
  | cons c t ih => simpa using ih

lemma fill_lookup_zero (ks : List String) (c : String) (x : ℚ)
    (h : (ks.map (fun c => (c, (0 : ℚ)))).lookup c = some x) : x = 0 := by
  induction ks with
  | nil => simp at h
  | cons k t ih =>
    rw [List.map_cons, List.lookup_cons] at h
    cases hck : c == k
    · rw [hck] at h
      exact ih h
    · rw [hck] at h
      exact (Option.some.inj h).symm

lemma lookup_isSome_of_mem {β : Type} {l : List (String × β)} {c : String}
    (h : c ∈ l.map Prod.fst) : (l.lookup c).isSome := by
  rw [List.lookup_isSome_iff]
  obtain ⟨p, hp, hpc⟩ := List.mem_map.mp h
  exact ⟨p, hp, by simp [hpc]⟩

lemma loop_lookup_bounds (d : List (String × ℚ)) (hd : ∀ p ∈ d, 0 ≤ p.2)
    (l : List String) : ∀ (r : ℚ), 0 ≤ r → ∀ c v,
      (allocate_loop d r l).lookup c = some v →
      0 ≤ v ∧ v ≤ (d.lookup c).getD 0 := by
  induction l with
  | nil => intro r hr c v h; simp [allocate_loop] at h
  | cons a rest ih =>
    intro r hr c v h
    simp only [allocate_loop] at h
    rw [List.lookup_cons] at h
    cases hca : c == a
    · rw [hca] at h
      split_ifs at h with hstop
      · simp at h
      · have hdem := demVal_nonneg hd a
        have hrem : 0 ≤ r - min ((d.lookup a).getD 0) r := by
          have := min_le_right ((d.lookup a).getD 0) r
          linarith [not_le.mp hstop]
        exact ih (r - min ((d.lookup a).getD 0) r) hrem c v h
    · rw [hca] at h
      obtain rfl : c = a := eq_of_beq hca
      obtain rfl : min ((d.lookup c).getD 0) r = v := Option.some.inj h
      exact ⟨le_min (demVal_nonneg hd c) hr, min_le_left _ _⟩

lemma loop_priority (d : List (String × ℚ)) (l1 : List String) :
    ∀ (c1 : String) (l2 : List String) (c2 : String) (l3 : List String)
      (r v : ℚ),
      (l1 ++ c1 :: (l2 ++ c2 :: l3)).Nodup →
      (allocate_loop d r (l1 ++ c1 :: (l2 ++ c2 :: l3))).lookup c2 = some v →
      0 < v →
      (allocate_loop d r (l1 ++ c1 :: (l2 ++ c2 :: l3))).lookup c1 =
        some ((d.lookup c1).getD 0) := by
  induction l1 with
  | nil =>
    intro c1 l2 c2 l3 r v hnd hlk hv
    simp only [List.nil_append] at hnd hlk ⊢
    have hmem2 : c2 ∈ l2 ++ c2 :: l3 :=
      List.mem_append_right _ (List.mem_cons_self _ _)
    have hc21 : (c2 == c1) = false := by
      refine beq_eq_false_iff_ne.mpr ?_
      intro he
      exact (List.nodup_cons.mp hnd).1 (he ▸ hmem2)
    simp only [allocate_loop] at hlk ⊢
    rw [List.lookup_cons, hc21] at hlk
    split_ifs at hlk ⊢ with hstop
    · simp at hlk
    · rw [List.lookup_cons, beq_self_eq_true]
      rcases min_cases ((d.lookup c1).getD 0) r with ⟨hmin, _⟩ | ⟨hmin, _⟩
      · rw [hmin]
      · exact absurd (by rw [hmin]; simp) hstop
  | cons c l1' ih =>
    intro c1 l2 c2 l3 r v hnd hlk hv
    simp only [List.cons_append] at hnd hlk ⊢
    have hmem1 : c1 ∈ l1' ++ c1 :: (l2 ++ c2 :: l3) :=
      List.mem_append_right _ (List.mem_cons_self _ _)
    have hmem2 : c2 ∈ l1' ++ c1 :: (l2 ++ c2 :: l3) :=
      List.mem_append_right _
        (List.mem_cons_of_mem _ (List.mem_append_right _ (List.mem_cons_self _ _)))
    have hc1c : (c1 == c) = false := by
      refine beq_eq_false_iff_ne.mpr ?_
      intro he
      exact (List.nodup_cons.mp hnd).1 (he ▸ hmem1)
    have hc2c : (c2 == c) = false := by
      refine beq_eq_false_iff_ne.mpr ?_
      intro he
      exact (List.nodup_cons.mp hnd).1 (he ▸ hmem2)
    simp only [allocate_loop] at hlk ⊢
    rw [List.lookup_cons, hc2c] at hlk
    rw [List.lookup_cons, hc1c]
    split_ifs at hlk ⊢ with hstop
    · simp at hlk
    · exact ih c1 l2 c2 l3 (r - min ((d.lookup c).getD 0) r) v
        (List.nodup_cons.mp hnd).2 hlk hv

lemma sorted_before {s : List String} {rel : String → String → Prop}
    (hs : s.Pairwise rel) (c1 c2 : String) (h1 : c1 ∈ s) (h2 : c2 ∈ s)
    (hne : c2 ≠ c1) (hnr : ¬ rel c2 c1) :
    ∃ u w1 w2, s = u ++ c1 :: (w1 ++ c2 :: w2) := by
  obtain ⟨u, t, rfl⟩ := List.append_of_mem h1
  rcases List.mem_append.mp h2 with hu | hct
  · exact absurd ((List.pairwise_append.mp hs).2.2 c2 hu c1
      (List.mem_cons_self _ _)) hnr
  · rcases List.mem_cons.mp hct with he | ht
    · exact absurd he hne
    · obtain ⟨w1, w2, rfl⟩ := List.append_of_mem ht
      exact ⟨u, w1, w2, by simp⟩

lemma pa_lookup (available : ℚ) (demands : List (String × ℚ))
    (priorities : List (String × Int)) (c : String) :
    (priority_allocate available demands priorities).lookup c =
      ((allocate_loop demands available
          (sorted_consumers demands priorities)).lookup c).or
        ((((demands.map Prod.fst).filter
            (fun x => ! ((allocate_loop demands available
              (sorted_consumers demands priorities)).lookup x).isSome)).map
          (fun x => (x, (0 : ℚ)))).lookup c) := by
  rw [priority_allocate]
  exact List.lookup_append

lemma fill_keys (ks : List String) :
    (ks.map (fun c => (c, (0 : ℚ)))).map Prod.fst = ks := by
  induction ks with
  | nil => rfl
  | cons a t ih => simp [ih]

end RuleBasedController

/-- C5 counterexample: a consumer with an absent (or zero) priority entry
is NOT given 0 — `priority_allocate(100, {A: 60}, {})` allocates the full
60 to `A`: absent priorities default to rank 0, and rank-0 consumers still
receive whatever remains. -/
theorem C5_priority_allocate_counterexample :
    (RuleBasedController.priority_allocate 100 [("A", 60)] []).lookup "A"
      = some 60 ∧ some (60 : ℚ) ≠ some (0 : ℚ) := by
  constructor
  · norm_num [RuleBasedController.priority_allocate,
      RuleBasedController.sorted_consumers, RuleBasedController.allocate_loop,
      RuleBasedController.prioGE, RuleBasedController.prio,
      List.insertionSort, List.orderedInsert, List.lookup]
  · simp

/-- C5 (amended): for non-negative `available` and demands (with distinct
consumer keys), `priority_allocate` returns an allocation entry for every
consumer of the demand map; the allocations sum to at most `available`;
every allocation lies between 0 and the consumer's demand; and a
strictly-higher-priority consumer is fully satisfied whenever any
lower-priority consumer receives a positive amount. Consumers with zero or
absent priority are ranked last but still receive from what remains (they
do NOT always get 0); concretely
`priority_allocate(100, {A: 60, B: 60}, {A: 2, B: 1})` gives `A = 60`,
`B = 40`. -/
theorem C5_priority_allocate_amended (available : ℚ)
    (demands : List (String × ℚ)) (priorities : List (String × Int))
    (ha : 0 ≤ available) (hd : ∀ p ∈ demands, 0 ≤ p.2)
    (hnd : (demands.map Prod.fst).Nodup) :
    (∀ c ∈ demands.map Prod.fst,
      ((RuleBasedController.priority_allocate available demands
        priorities).lookup c).isSome) ∧
    ((RuleBasedController.priority_allocate available demands
        priorities).map Prod.snd).sum ≤ available ∧
    (∀ c v, (RuleBasedController.priority_allocate available demands
        priorities).lookup c = some v →
      0 ≤ v ∧ v ≤ (demands.lookup c).getD 0) ∧
    (∀ c1 c2 v, c1 ∈ demands.map Prod.fst → c2 ∈ demands.map Prod.fst →
      RuleBasedController.prio priorities c2 <
        RuleBasedController.prio priorities c1 →
      (RuleBasedController.priority_allocate available demands
        priorities).lookup c2 = some v →
      0 < v →
      (RuleBasedController.priority_allocate available demands
        priorities).lookup c1 = some ((demands.lookup c1).getD 0)) ∧
    ((RuleBasedController.priority_allocate 100 [("A", 60), ("B", 60)]
        [("A", 2), ("B", 1)]).lookup "A" = some 60 ∧
      (RuleBasedController.priority_allocate 100 [("A", 60), ("B", 60)]
        [("A", 2), ("B", 1)]).lookup "B" = some 40) := by
  open RuleBasedController in
  refine ⟨?_, ?_, ?_, ?_, ?_, ?_⟩
  · -- every demand key gets an entry
    intro c hc
    rw [RuleBasedController.pa_lookup]
    rcases halloc : (RuleBasedController.allocate_loop demands available
        (RuleBasedController.sorted_consumers demands priorities)).lookup c
      with _ | w
    · simp only [Option.none_or]
      apply RuleBasedController.lookup_isSome_of_mem
      rw [RuleBasedController.fill_keys]
      exact List.mem_filter.mpr ⟨hc, by simp [halloc]⟩
    · rfl
  · -- the sum never exceeds `available`
    rw [RuleBasedController.priority_allocate]
    simp only [List.map_append, List.sum_append]
    rw [RuleBasedController.fill_snd_sum, add_zero]
    exact RuleBasedController.loop_sum_le demands hd _ available ha
  · -- every allocation is between 0 and the demand
    intro c v h
    rw [RuleBasedController.pa_lookup] at h
    rcases halloc : (RuleBasedController.allocate_loop demands available
        (RuleBasedController.sorted_consumers demands priorities)).lookup c
      with _ | w
    · rw [halloc] at h
      simp only [Option.none_or] at h
      obtain rfl : v = 0 := RuleBasedController.fill_lookup_zero _ _ _ h
      exact ⟨le_refl 0, RuleBasedController.demVal_nonneg hd c⟩
    · rw [halloc] at h
      rw [show (some w).or _ = some w from rfl] at h
      obtain rfl : v = w := (Option.some.inj h).symm
      exact RuleBasedController.loop_lookup_bounds demands hd _ available ha
        c v halloc
  · -- strict priority: higher priority is fully served first
    intro c1 c2 v hc1 hc2 hlt hlk hv
    have hperm : List.Perm
        (RuleBasedController.sorted_consumers demands priorities)
        (demands.map Prod.fst) := List.perm_insertionSort _ _
    have hsnd : (RuleBasedController.sorted_consumers demands
        priorities).Nodup := hperm.nodup_iff.mpr hnd
    have hsorted : (RuleBasedController.sorted_consumers demands
        priorities).Pairwise (RuleBasedController.prioGE priorities) :=
      List.sorted_insertionSort _ _
    have hne : c2 ≠ c1 := by
      intro he
      rw [he] at hlt
      exact lt_irrefl _ hlt
    have hnr : ¬ RuleBasedController.prioGE priorities c2 c1 := not_le.mpr hlt
    obtain ⟨u, w1, w2, hse⟩ := RuleBasedController.sorted_before hsorted c1 c2
      (hperm.mem_iff.mpr hc1) (hperm.mem_iff.mpr hc2) hne hnr
    have halloc2 : (RuleBasedController.allocate_loop demands available
        (RuleBasedController.sorted_consumers demands priorities)).lookup c2
        = some v := by
      rw [RuleBasedController.pa_lookup] at hlk
      rcases h : (RuleBasedController.allocate_loop demands available
          (RuleBasedController.sorted_consumers demands priorities)).lookup c2
        with _ | w
      · rw [h] at hlk
        simp only [Option.none_or] at hlk
        have h0 := RuleBasedController.fill_lookup_zero _ _ _ hlk
        rw [h0] at hv
        exact absurd hv (lt_irrefl 0)
      · rw [h] at hlk
        rw [show (some w).or _ = some w from rfl] at hlk
        exact hlk
    rw [hse] at hsnd halloc2
    have hkey := RuleBasedController.loop_priority demands u c1 w1 c2 w2
      available v hsnd halloc2 hv
    rw [RuleBasedController.pa_lookup]
    rw [hse, hkey]
    rfl
  · have e1 : (("A" : String) == "A") = true := rfl
    have e2 : (("B" : String) == "A") = false := rfl
    have e3 : (("A" : String) == "B") = false := rfl
    have e4 : (("B" : String) == "B") = true := rfl
    norm_num [RuleBasedController.priority_allocate,
      RuleBasedController.sorted_consumers, RuleBasedController.allocate_loop,
      RuleBasedController.prioGE, RuleBasedController.prio,
      List.insertionSort, List.orderedInsert, List.lookup, e1, e2, e3, e4]
  · have e1 : (("A" : String) == "A") = true := rfl
    have e2 : (("B" : String) == "A") = false := rfl
    have e3 : (("A" : String) == "B") = false := rfl
    have e4 : (("B" : String) == "B") = true := rfl
    norm_num [RuleBasedController.priority_allocate,
      RuleBasedController.sorted_consumers, RuleBasedController.allocate_loop,
      RuleBasedController.prioGE, RuleBasedController.prio,
      List.insertionSort, List.orderedInsert, List.lookup, e1, e2, e3, e4]

/-- Witness for C5's amended theorem at the spec's own example. -/
theorem C5_priority_allocate_amended_witness :
    ((RuleBasedController.priority_allocate 100 [("A", 60), ("B", 60)]
        [("A", 2), ("B", 1)]).map Prod.snd).sum ≤ 100 ∧
    (RuleBasedController.priority_allocate 100 [("A", 60), ("B", 60)]
        [("A", 2), ("B", 1)]).lookup "A" = some 60 ∧
    (RuleBasedController.priority_allocate 100 [("A", 60), ("B", 60)]
        [("A", 2), ("B", 1)]).lookup "B" = some 40 := by
  have h := C5_priority_allocate_amended 100 [("A", 60), ("B", 60)]
    [("A", 2), ("B", 1)] (by norm_num)
    (by intro p hp
        simp only [List.mem_cons, List.not_mem_nil, or_false] at hp
        rcases hp with rfl | rfl <;> norm_num)
    (by decide)
  exact ⟨h.2.1, h.2.2.2.2.1, h.2.2.2.2.2⟩

end MAS
